import Mathlib

/-!
Verification of the position-ingestion and proximity-alerting pipeline of the
RouteWise bus-tracking application (`src/app.py`).

Shallow embedding notes:
* Python floats are modelled exactly: parsed values are rationals (`PyQ`), with
  distinguished `nan` / `inf` / `ninf` values mirroring IEEE special values that
  `float()` accepts; derived geometric quantities live in `PyF`, whose finite
  values are real numbers (the idealized model of float arithmetic).
* JSON scalars reaching `request.get_json` are modelled by `JVal`
  (numbers, strings, null).  Containers never reach the modelled fields in a
  meaningful way and are omitted.
* External collaborators: the DynamoDB `table.put_item` call (HistoryStore) is
  modelled as an always-successful append recorded in `Outcome.writes`; the SNS
  `sns_client.publish` call (AlertDispatcher) is modelled by a `publishFails`
  parameter, a successful publish being recorded in `Outcome.pubs`.
* `random.uniform(10, 35)` (speed filler) and `now_ts()` are modelled as
  parameters `speedDefault` and `now` of the pipeline.
* The process-local timezone is modelled as UTC, so naive `datetime.timestamp()`
  agrees with the UTC epoch.
-/

namespace BusRoutea

/-- Model of a scalar JSON value as handed to `api_track` by `request.get_json`.
Non-finite JSON number literals are representable through their string forms
(`float("nan")` etc.), which `float()` also accepts. -/
inductive JVal where
  | jnum (q : ℚ)
  | jstr (s : String)
  | jnull
deriving Repr, DecidableEq

/-- Result of Python `float(...)`: a finite value (exact rational model of the
decimal literal), or one of the special values `nan`, `inf`, `-inf`. -/
inductive PyQ where
  | fin (q : ℚ)
  | nan
  | inf
  | ninf
deriving Repr, DecidableEq

/-- Value of a digit character. -/
def digitVal (c : Char) : ℕ := c.toNat - 48

/-- Numeric value of a digit string (assumes all digits). -/
def digitsToNat (cs : List Char) : ℕ :=
  cs.foldl (fun a c => a * 10 + digitVal c) 0

def allDigits (cs : List Char) : Bool := cs.all Char.isDigit

/-- Parse the exponent part of a float literal (after the letter e):
optional sign followed by a non-empty digit string. -/
def parseExp (cs : List Char) : Option ℤ :=
  match cs with
  | '+' :: rest => if rest ≠ [] ∧ allDigits rest then some (digitsToNat rest) else none
  | '-' :: rest => if rest ≠ [] ∧ allDigits rest then some (-(digitsToNat rest : ℤ)) else none
  | _ => if cs ≠ [] ∧ allDigits cs then some (digitsToNat cs) else none

/-- Split a character list at every occurrence of `c` (structural analogue of
`str.split`). -/
def splitOnChar (c : Char) : List Char → List (List Char)
  | [] => [[]]
  | x :: rest =>
    let r := splitOnChar c rest
    if x = c then [] :: r
    else
      match r with
      | [] => [[x]]
      | h :: t => (x :: h) :: t

/-- Strip leading and trailing whitespace (Python `str.strip()`). -/
def stripChars (cs : List Char) : List Char :=
  ((cs.dropWhile Char.isWhitespace).reverse.dropWhile Char.isWhitespace).reverse

/-- Python `str.upper()` (ASCII; catalog keys and statuses are ASCII). -/
def strUpper (s : String) : String := String.mk (s.toList.map Char.toUpper)

/-- Python `str.strip()`. -/
def strTrim (s : String) : String := String.mk (stripChars s.toList)

/-- Parse the mantissa of a float literal: `digits[.digits]` or `.digits` or
`digits.`, with at least one digit overall. -/
def parseMantissa (cs : List Char) : Option ℚ :=
  match splitOnChar '.' cs with
  | [i] =>
      if i ≠ [] ∧ allDigits i then some ((digitsToNat i : ℚ)) else none
  | [i, f] =>
      if (i ≠ [] ∨ f ≠ []) ∧ allDigits i ∧ allDigits f then
        some ((digitsToNat i : ℚ) + (digitsToNat f : ℚ) / (10 : ℚ) ^ f.length)
      else none
  | _ => none

/-- Model of Python `float(str)` on a stripped, lower-cased body (sign already
removed).  Underscore digit grouping is not modelled. -/
def parseFloatBody (cs : List Char) : Option ℚ :=
  match splitOnChar 'e' cs with
  | [m] => parseMantissa m
  | [m, e] => do
      let mv ← parseMantissa m
      let ev ← parseExp e
      some (mv * (10 : ℚ) ^ ev)
  | _ => none

/-- Model of Python `float(str)`: strip whitespace, case-insensitive, optional
sign, then `nan`, `inf`/`infinity`, or a decimal literal. -/
def parseFloatStr (s : String) : Option PyQ :=
  let cs := (stripChars s.toList).map Char.toLower
  let (neg, body) :=
    match cs with
    | '-' :: rest => (true, rest)
    | '+' :: rest => (false, rest)
    | _ => (false, cs)
  if body = ("nan").toList then some PyQ.nan
  else if body = ("inf").toList ∨ body = ("infinity").toList then
    some (if neg then PyQ.ninf else PyQ.inf)
  else
    match parseFloatBody body with
    | some q => some (PyQ.fin (if neg then -q else q))
    | none => none

/-- Model of Python `float(x)` on a JSON scalar. -/
def pyFloat : JVal → Except String PyQ
  | .jnum q => .ok (.fin q)
  | .jstr s =>
      match parseFloatStr s with
      | some v => .ok v
      | none => .error ("could not convert string to float: " ++ s)
  | .jnull => .error ("float() argument must be a string or a real number, not NoneType")

/-- Model of Python `str(x)` on a JSON scalar.  For numbers the exact decimal
rendering is immaterial to every claim (a numeric `str` is never a catalog
key); we render the rational directly. -/
def pyStr : JVal → String
  | .jstr s => s
  | .jnum q => toString q
  | .jnull => "None"

/-- `float(data["field"])`: `KeyError` when the field is missing, otherwise
`float` conversion. -/
def parseCoord (field : String) (v : Option JVal) : Except String PyQ :=
  match v with
  | none => .error ("KeyError: " ++ field)
  | some v => pyFloat v

/-- Python `int(q)` on a number: truncation toward zero. -/
def truncQ (q : ℚ) : ℤ := if 0 ≤ q then ⌊q⌋ else ⌈q⌉

def isLeapYear (y : ℤ) : Bool := (y % 4 == 0 && y % 100 != 0) || y % 400 == 0

def daysInMonth (y m : ℤ) : ℤ :=
  if m = 2 then (if isLeapYear y then 29 else 28)
  else if m = 4 ∨ m = 6 ∨ m = 9 ∨ m = 11 then 30
  else 31

/-- Days since 1970-01-01 of a proleptic-Gregorian civil date
(Hinnant's `days_from_civil` algorithm). -/
def daysFromCivil (y m d : ℤ) : ℤ :=
  let y' := if m ≤ 2 then y - 1 else y
  let era := y'.fdiv 400
  let yoe := y' - era * 400
  let mp := (m + 9) % 12
  let doy := (153 * mp + 2).fdiv 5 + d - 1
  let doe := yoe * 365 + yoe.fdiv 4 - yoe.fdiv 100 + doy
  era * 146097 + doe - 719468

/-- Read two digits. -/
def get2 : List Char → Option (ℕ × List Char)
  | a :: b :: rest =>
      if a.isDigit && b.isDigit then some (digitVal a * 10 + digitVal b, rest) else none
  | _ => none

/-- Read four digits. -/
def get4 (cs : List Char) : Option (ℕ × List Char) := do
  let (hi, cs) ← get2 cs
  let (lo, cs) ← get2 cs
  some (hi * 100 + lo, cs)

def expectCh (c : Char) : List Char → Option (List Char)
  | x :: rest => if x = c then some rest else none
  | _ => none

/-- Trailing UTC-offset part `±HH:MM`; must consume the rest of the string.
Returns the offset in seconds. -/
def parseOffset (cs : List Char) : Option ℤ := do
  let sgn ← match cs with
    | '+' :: _ => some (1 : ℤ)
    | '-' :: _ => some (-1 : ℤ)
    | _ => none
  let (oh, r) ← get2 (cs.drop 1)
  let r ← expectCh ':' r
  let (om, r) ← get2 r
  if r = [] ∧ oh ≤ 23 ∧ om ≤ 59 then some (sgn * ((oh : ℤ) * 3600 + om * 60)) else none

/-- Model of `datetime.fromisoformat(s).timestamp()` (seconds resolution) on the
core ISO-8601 subset `YYYY-MM-DD[{T| }HH:MM:SS[±HH:MM]]`, with the process
timezone modelled as UTC for naive datetimes.  Returns epoch seconds. -/
def fromIso (cs0 : List Char) : Option ℤ := do
  let (y, cs) ← get4 cs0
  let cs ← expectCh '-' cs
  let (mo, cs) ← get2 cs
  let cs ← expectCh '-' cs
  let (d, cs) ← get2 cs
  if y < 1 ∨ mo < 1 ∨ 12 < mo ∨ d < 1 ∨ daysInMonth y mo < (d : ℤ) then none else
  let base := daysFromCivil y mo d * 86400
  match cs with
  | [] => some base
  | c :: rest =>
      if c ≠ 'T' ∧ c ≠ ' ' then none else do
      let (h, r) ← get2 rest
      let r ← expectCh ':' r
      let (mi, r) ← get2 r
      let r ← expectCh ':' r
      let (se, r) ← get2 r
      if 23 < h ∨ 59 < mi ∨ 59 < se then none else
      let t := base + (h : ℤ) * 3600 + mi * 60 + se
      match r with
      | [] => some t
      | _ => do
          let off ← parseOffset r
          some (t - off)

/-- `s.replace("Z", "+00:00")` (the pattern is a single character). -/
def replaceZ (cs : List Char) : List Char :=
  cs.foldr
    (fun c acc =>
      if c = 'Z' then '+' :: '0' :: '0' :: ':' :: '0' :: '0' :: acc else c :: acc)
    []

/-- The shapes `item["TimeStamp"]` can have when `safe_put_item` normalizes it:
Python `None`, a string, a number, or a datetime-like value (represented by the
rational value of its `.timestamp()`). -/
inductive TsVal where
  | noneV
  | strV (s : String)
  | numV (q : ℚ)
  | dtV (epoch : ℚ)
deriving Repr, DecidableEq

/-- Timestamp normalization of `safe_put_item` (lines 77-83 of `app.py`):
absent/empty values become the current time, datetimes convert via
`.timestamp()`, strings go through `fromisoformat` after replacing `Z` with
`+00:00`, and anything numeric is truncated by `int(...)`. -/
def normalizeTs (v : TsVal) (now : ℤ) : Except String ℤ :=
  match v with
  | .noneV => .ok now
  | .dtV e => .ok (truncQ e)
  | .strV s =>
      if s = "" then .ok now
      else
        match fromIso (replaceZ s.toList) with
        | some t => .ok t
        | none => .error ("Invalid isoformat string: " ++ s)
  | .numV q => .ok (truncQ q)

/-- A stop on a route (coordinates are the exact decimal literals of the
source's `buses` table). -/
structure Stop where
  name : String
  lat : ℚ
  lon : ℚ
deriving Repr, DecidableEq

/-- Static route data for one bus. -/
structure BusInfo where
  route : String
  stops : List Stop
  frequency : String
  busType : String
deriving Repr, DecidableEq

/-- Route data of bus 10A (`app.py` lines 30-35). -/
def bus10A : BusInfo :=
  { route := "Secunderabad → Mehdipatnam"
    stops :=
      [ { name := "Secunderabad", lat := 17.4399, lon := 78.4983 }
      , { name := "Begumpet", lat := 17.4444, lon := 78.4611 }
      , { name := "Ameerpet", lat := 17.4375, lon := 78.4483 }
      , { name := "Punjagutta", lat := 17.4294, lon := 78.4506 }
      , { name := "Mehdipatnam", lat := 17.3956, lon := 78.4403 } ]
    frequency := "Every 10 mins"
    busType := "AC" }

/-- Route data of bus 100M (`app.py` lines 36-41). -/
def bus100M : BusInfo :=
  { route := "JBS → MGBS"
    stops :=
      [ { name := "JBS", lat := 17.4565, lon := 78.4998 }
      , { name := "Paradise", lat := 17.4432, lon := 78.4841 }
      , { name := "Charminar", lat := 17.3616, lon := 78.4747 }
      , { name := "Moazzam Jahi Market", lat := 17.3832, lon := 78.4735 }
      , { name := "MGBS", lat := 17.3840, lon := 78.4804 } ]
    frequency := "Every 8 mins"
    busType := "Metro Express" }

/-- Route data of bus 65G (`app.py` lines 42-47). -/
def bus65G : BusInfo :=
  { route := "Miyapur → Shamshabad"
    stops :=
      [ { name := "Miyapur", lat := 17.4947, lon := 78.3569 }
      , { name := "Lingampally", lat := 17.4948, lon := 78.3246 }
      , { name := "Gachibowli", lat := 17.4401, lon := 78.3489 }
      , { name := "Rajiv Gandhi Airport", lat := 17.2402, lon := 78.4294 }
      , { name := "Shamshabad", lat := 17.2289, lon := 78.4297 } ]
    frequency := "Every 30 mins"
    busType := "Airport Express" }

/-- The `buses` table of `app.py` (lines 29-48). -/
def buses : List (String × BusInfo) :=
  [("10A", bus10A), ("100M", bus100M), ("65G", bus65G)]

/-- `bus_id in buses` / `buses[bus_id]`. -/
def lookupBus (k : String) : Option BusInfo := buses.lookup k

/-! ### Geometry (`math.radians`, `math.atan2`, `haversine_km`) -/

/-- `math.radians`. -/
noncomputable def radians (x : ℝ) : ℝ := x * Real.pi / 180

/-- `math.atan2 y x` (two-argument arctangent, IEEE/C convention). -/
noncomputable def atan2 (y x : ℝ) : ℝ :=
  if 0 < x then Real.arctan (y / x)
  else if x < 0 then
    (if 0 ≤ y then Real.arctan (y / x) + Real.pi else Real.arctan (y / x) - Real.pi)
  else
    (if 0 < y then Real.pi / 2 else if y < 0 then -(Real.pi / 2) else 0)

/-- `haversine_km` of `app.py` (lines 91-96), over the reals. -/
noncomputable def haversine_km (lat1 lon1 lat2 lon2 : ℝ) : ℝ :=
  let R : ℝ := 6371.0
  let phi1 := radians lat1
  let phi2 := radians lat2
  let dphi := radians (lat2 - lat1)
  let dlambda := radians (lon2 - lon1)
  let a := Real.sin (dphi / 2) ^ 2 + Real.cos phi1 * Real.cos phi2 * Real.sin (dlambda / 2) ^ 2
  2 * R * atan2 (Real.sqrt a) (Real.sqrt (1 - a))

/-- A float value occurring while the pipeline runs: finite values are reals
(idealized float arithmetic), plus the IEEE specials. -/
inductive PyF where
  | fin (x : ℝ)
  | nan
  | inf
  | ninf

def PyQ.toF : PyQ → PyF
  | .fin q => .fin (q : ℝ)
  | .nan => .nan
  | .inf => .inf
  | .ninf => .ninf

/-- Python `<` on float values (every comparison with `nan` is false). -/
def PyF.ltP : PyF → PyF → Prop
  | .fin x, .fin y => x < y
  | .fin _, .inf => True
  | .ninf, .fin _ => True
  | .ninf, .inf => True
  | _, _ => False

/-- Python `<=` on float values (every comparison with `nan` is false). -/
def PyF.leP : PyF → PyF → Prop
  | .fin x, .fin y => x ≤ y
  | .fin _, .inf => True
  | .ninf, .fin _ => True
  | .ninf, .ninf => True
  | .ninf, .inf => True
  | .inf, .inf => True
  | _, _ => False

noncomputable instance PyF.ltP.instDec : ∀ a b : PyF, Decidable (PyF.ltP a b)
  | .fin x, .fin y => inferInstanceAs (Decidable (x < y))
  | .fin _, .inf => .isTrue trivial
  | .fin _, .nan => .isFalse (fun h => h)
  | .fin _, .ninf => .isFalse (fun h => h)
  | .nan, .fin _ => .isFalse (fun h => h)
  | .nan, .nan => .isFalse (fun h => h)
  | .nan, .inf => .isFalse (fun h => h)
  | .nan, .ninf => .isFalse (fun h => h)
  | .inf, .fin _ => .isFalse (fun h => h)
  | .inf, .nan => .isFalse (fun h => h)
  | .inf, .inf => .isFalse (fun h => h)
  | .inf, .ninf => .isFalse (fun h => h)
  | .ninf, .fin _ => .isTrue trivial
  | .ninf, .nan => .isFalse (fun h => h)
  | .ninf, .inf => .isTrue trivial
  | .ninf, .ninf => .isFalse (fun h => h)

noncomputable instance PyF.leP.instDec : ∀ a b : PyF, Decidable (PyF.leP a b)
  | .fin x, .fin y => inferInstanceAs (Decidable (x ≤ y))
  | .fin _, .inf => .isTrue trivial
  | .fin _, .nan => .isFalse (fun h => h)
  | .fin _, .ninf => .isFalse (fun h => h)
  | .nan, .fin _ => .isFalse (fun h => h)
  | .nan, .nan => .isFalse (fun h => h)
  | .nan, .inf => .isFalse (fun h => h)
  | .nan, .ninf => .isFalse (fun h => h)
  | .inf, .fin _ => .isFalse (fun h => h)
  | .inf, .nan => .isFalse (fun h => h)
  | .inf, .inf => .isTrue trivial
  | .inf, .ninf => .isFalse (fun h => h)
  | .ninf, .fin _ => .isTrue trivial
  | .ninf, .nan => .isFalse (fun h => h)
  | .ninf, .inf => .isTrue trivial
  | .ninf, .ninf => .isTrue trivial

/-- One `haversine_km(lat, lon, s["lat"], s["lon"])` call.  `math.sin` raises
`ValueError` on an infinite argument; every finite computation on a `nan`
propagates `nan`. -/
noncomputable def havPy (la lo : PyQ) (s : Stop) : Except String PyF :=
  match la, lo with
  | .inf, _ => .error ("math domain error")
  | .ninf, _ => .error ("math domain error")
  | _, .inf => .error ("math domain error")
  | _, .ninf => .error ("math domain error")
  | .nan, _ => .ok .nan
  | _, .nan => .ok .nan
  | .fin x, .fin y => .ok (.fin (haversine_km (x : ℝ) (y : ℝ) (s.lat : ℝ) (s.lon : ℝ)))

/-! ### The ingestion pipeline (`api_track`, `safe_put_item`) -/

/-- The JSON body of a track request (fields read by `api_track`). -/
structure RawReport where
  bus_id : Option JVal
  lat : Option JVal
  lon : Option JVal
  speed_kmph : Option JVal
  status : Option JVal
  timestamp : Option JVal
  alert_radius_km : Option JVal
deriving Repr, DecidableEq

/-- A record persisted by `safe_put_item` (the `item` dict after normalization;
`decimalize` only changes storage types and is modelled as the identity on
values). -/
structure Item where
  busId : String
  timeStamp : ℤ
  latitude : PyQ
  longitude : PyQ
  speedKmph : PyQ
  status : String
  route : String
  nextStop : String
  distanceToStopKm : PyF

instance : Inhabited Item :=
  ⟨⟨"", 0, .fin 0, .fin 0, .fin 0, "", "", "", .nan⟩⟩

/-- HTTP-level outcome of `api_track`: the JSON payload plus status code. -/
inductive Resp where
  | ok (item : Item)
  | err (msg : String) (code : ℕ)

def Resp.isOk : Resp → Bool
  | .ok _ => true
  | .err _ _ => false

def Resp.itemOf : Resp → Item
  | .ok item => item
  | .err _ _ => default

/-- HTTP status code of a response (`jsonify(...), code`). -/
def Resp.code : Resp → ℕ
  | .ok _ => 200
  | .err _ c => c

/-- A successfully dispatched SNS alert (subject data; the exact message
formatting carries no claim-relevant information). -/
structure Pub where
  busId : String
  nextStop : String

/-- Observable outcome of one `api_track` call: the response, the sequence of
HistoryStore writes and the sequence of successful alert publishes. -/
structure Outcome where
  resp : Resp
  writes : List Item
  pubs : List Pub

/-- `float(data.get("speed_kmph", random.uniform(10, 35)))`; the filler value
is the parameter `speedDefault`. -/
def speedVal (r : RawReport) (speedDefault : ℚ) : Except String PyQ :=
  match r.speed_kmph with
  | some v => pyFloat v
  | none => .ok (.fin speedDefault)

/-- `float(data.get("alert_radius_km", 0.5))`. -/
def alertRadius (r : RawReport) : Except String PyQ :=
  match r.alert_radius_km with
  | some v => pyFloat v
  | none => .ok (.fin (1 / 2))

/-- `data.get("timestamp", now_ts())` as seen by `safe_put_item`. -/
def tsValOf (r : RawReport) (now : ℤ) : TsVal :=
  match r.timestamp with
  | none => .numV (now : ℚ)
  | some (.jnum q) => .numV q
  | some (.jstr s) => .strV s
  | some .jnull => .noneV

/-- `str(data.get("bus_id", "")).upper().strip()`. -/
def normBusId (r : RawReport) : String := strTrim (strUpper (pyStr (r.bus_id.getD (.jstr ""))))

/-- `str(data.get("status", "ACTIVE")).upper()`. -/
def statusOf (r : RawReport) : String := strUpper (pyStr (r.status.getD (.jstr "ACTIVE")))

/-- `datetime.fromtimestamp(float(ts), timezone.utc)` (inside `format_ts`)
accepts exactly the epoch values landing in years 1 to 9999. -/
def formatTsOk (ts : ℤ) : Bool := -62135596800 ≤ ts && ts ≤ 253402300799

/-- The list comprehension
`[(s["name"], haversine_km(lat, lon, s["lat"], s["lon"])) for s in stops]`;
a raise inside the comprehension aborts it. -/
noncomputable def distsOf (la lo : PyQ) : List Stop → Except String (List (String × PyF))
  | [] => .ok []
  | s :: rest =>
    match havPy la lo s with
    | .error e => .error e
    | .ok d =>
      match distsOf la lo rest with
      | .error e => .error e
      | .ok ds => .ok ((s.name, d) :: ds)

/-- `min(dists, key=lambda x: x[1])` on a non-empty list `d :: l`: CPython keeps
the current best and replaces it only when a later key is strictly smaller. -/
noncomputable def minSnd (d : String × PyF) (l : List (String × PyF)) : String × PyF :=
  l.foldl (fun best x => if PyF.ltP x.2 best.2 then x else best) d

/-- State of one `api_track` call just before the `sns_publish` call: either
already finished (with its outcome), or about to publish. -/
inductive PreOut where
  | done (o : Outcome)
  | willPublish (item : Item) (busId stop : String)

/-- `api_track` (lines 130-152 of `app.py`) up to the `sns_publish` call, in the
source's evaluation order: `float(data["lat"])`, `float(data["lon"])` and the
speed conversion run before the catalog check; the timestamp is parsed inside
`safe_put_item` after it; every raised exception is caught by the handler and
becomes a 500 response carrying `str(e)`. -/
noncomputable def apiTrackPre (r : RawReport) (speedDefault : ℚ) (now : ℤ) : PreOut :=
  match parseCoord ("lat") r.lat with
  | .error e => .done ⟨.err e 500, [], []⟩
  | .ok la =>
  match parseCoord ("lon") r.lon with
  | .error e => .done ⟨.err e 500, [], []⟩
  | .ok lo =>
  match speedVal r speedDefault with
  | .error e => .done ⟨.err e 500, [], []⟩
  | .ok speed =>
  let status := statusOf r
  let tsv := tsValOf r now
  let bus_id := normBusId r
  match lookupBus bus_id with
  | none => .done ⟨.err ("Unknown bus_id " ++ bus_id) 400, [], []⟩
  | some bi =>
  match distsOf la lo bi.stops with
  | .error e => .done ⟨.err e 500, [], []⟩
  | .ok dists =>
  match dists with
  | [] => .done ⟨.err ("min() arg is an empty sequence") 500, [], []⟩
  | d0 :: drest =>
  let m := minSnd d0 drest
  if strTrim bus_id = "" then .done ⟨.err ("Missing BusID") 500, [], []⟩
  else
  match normalizeTs tsv now with
  | .error e => .done ⟨.err e 500, [], []⟩
  | .ok tsn =>
  let item : Item := ⟨strUpper bus_id, tsn, la, lo, speed, status, bi.route, m.1, m.2⟩
  match alertRadius r with
  | .error e => .done ⟨.err e 500, [item], []⟩
  | .ok radius =>
  if PyF.leP m.2 radius.toF then
    (if formatTsOk tsn then .willPublish item bus_id m.1
     else .done ⟨.err ("year is out of range") 500, [item], []⟩)
  else .done ⟨.ok item, [item], []⟩

/-- One full `api_track` call.  A failing `sns_publish` raises inside the `try`
block, so the handler turns it into a 500 response; the already-performed
HistoryStore write is kept either way. -/
noncomputable def apiTrack (r : RawReport) (speedDefault : ℚ) (now : ℤ)
    (publishFails : Bool) : Outcome :=
  match apiTrackPre r speedDefault now with
  | .done o => o
  | .willPublish item b s =>
      if publishFails then ⟨.err ("publish failed") 500, [item], []⟩
      else ⟨.ok item, [item], [⟨b, s⟩]⟩

/-! ### Auxiliary definitions used by the verification -/

/-- The haversine intermediate `a` of `haversine_km` (the source's local `a`). -/
noncomputable def havA (lat1 lon1 lat2 lon2 : ℝ) : ℝ :=
  Real.sin (radians (lat2 - lat1) / 2) ^ 2 +
    Real.cos (radians lat1) * Real.cos (radians lat2) *
      Real.sin (radians (lon2 - lon1) / 2) ^ 2

/-- `min` with key `x[1]` on real-valued keys (the all-finite case of
`minSnd`). -/
noncomputable def minR (d : String × ℝ) (l : List (String × ℝ)) : String × ℝ :=
  l.foldl (fun best x => if x.2 < best.2 then x else best) d

/-- The literal report of the spec's scenario:
`{bus_id:"10a", lat:17.4376, lon:78.4483, alert_radius_km:0.5}`. -/
def report10a : RawReport :=
  { bus_id := some (.jstr "10a")
    lat := some (.jnum 17.4376)
    lon := some (.jnum 78.4483)
    speed_kmph := none
    status := none
    timestamp := none
    alert_radius_km := some (.jnum 0.5) }

/-- A report whose latitude is the string `nan` (which `float()` accepts). -/
def reportNan : RawReport :=
  { bus_id := some (.jstr "10A")
    lat := some (.jstr "nan")
    lon := some (.jnum 78.4483)
    speed_kmph := some (.jnum 20)
    status := none
    timestamp := some (.jnum 100)
    alert_radius_km := some (.jnum 0.5) }

/-- A valid report carrying the negative timestamp `-5`. -/
def reportNegTs : RawReport :=
  { bus_id := some (.jstr "10A")
    lat := some (.jnum 17.4376)
    lon := some (.jnum 78.4483)
    speed_kmph := some (.jnum 20)
    status := none
    timestamp := some (.jnum (-5))
    alert_radius_km := some (.jnum 0.5) }

/-- A report with an unknown vehicle id and an unparseable latitude. -/
def reportUnknownBadLat : RawReport :=
  { bus_id := some (.jstr "99Z")
    lat := some (.jstr "abc")
    lon := some (.jnum 78.4483)
    speed_kmph := some (.jnum 20)
    status := none
    timestamp := none
    alert_radius_km := none }

/-- A report with an unknown vehicle id and otherwise valid fields. -/
def reportUnknown : RawReport :=
  { bus_id := some (.jstr "99Z")
    lat := some (.jnum 17.4376)
    lon := some (.jnum 78.4483)
    speed_kmph := some (.jnum 20)
    status := none
    timestamp := none
    alert_radius_km := none }

/-- A report with an unknown vehicle id and an unparseable speed. -/
def reportBadSpeed : RawReport :=
  { bus_id := some (.jstr "99Z")
    lat := some (.jnum 17.4376)
    lon := some (.jnum 78.4483)
    speed_kmph := some (.jstr "fast")
    status := none
    timestamp := none
    alert_radius_km := none }

/-- A known-vehicle report with an unparseable timestamp string. -/
def reportBadTs : RawReport :=
  { bus_id := some (.jstr "10A")
    lat := some (.jnum 17.4376)
    lon := some (.jnum 78.4483)
    speed_kmph := some (.jnum 20)
    status := none
    timestamp := some (.jstr "not-a-date")
    alert_radius_km := none }

/-- The distance from the scenario report's position to the Ameerpet stop. -/
noncomputable def distAmeerpet : ℝ :=
  haversine_km ((17.4376 : ℚ) : ℝ) ((78.4483 : ℚ) : ℝ) ((17.4375 : ℚ) : ℝ) ((78.4483 : ℚ) : ℝ)

/-- Distance from the scenario report's position to the Secunderabad stop. -/
noncomputable def distSecunderabad : ℝ :=
  haversine_km ((17.4376 : ℚ) : ℝ) ((78.4483 : ℚ) : ℝ) ((17.4399 : ℚ) : ℝ) ((78.4983 : ℚ) : ℝ)

/-- Distance from the scenario report's position to the Begumpet stop. -/
noncomputable def distBegumpet : ℝ :=
  haversine_km ((17.4376 : ℚ) : ℝ) ((78.4483 : ℚ) : ℝ) ((17.4444 : ℚ) : ℝ) ((78.4611 : ℚ) : ℝ)

/-- Distance from the scenario report's position to the Punjagutta stop. -/
noncomputable def distPunjagutta : ℝ :=
  haversine_km ((17.4376 : ℚ) : ℝ) ((78.4483 : ℚ) : ℝ) ((17.4294 : ℚ) : ℝ) ((78.4506 : ℚ) : ℝ)

/-- Distance from the scenario report's position to the Mehdipatnam stop. -/
noncomputable def distMehdipatnam : ℝ :=
  haversine_km ((17.4376 : ℚ) : ℝ) ((78.4483 : ℚ) : ℝ) ((17.3956 : ℚ) : ℝ) ((78.4403 : ℚ) : ℝ)

/-- The record `api_track` persists for `report10a` (speed filler `sp`, current
time `now`). -/
noncomputable def item10a (sp : ℚ) (now : ℤ) : Item :=
  { busId := "10A"
    timeStamp := now
    latitude := .fin 17.4376
    longitude := .fin 78.4483
    speedKmph := .fin sp
    status := "ACTIVE"
    route := "Secunderabad → Mehdipatnam"
    nextStop := "Ameerpet"
    distanceToStopKm := .fin distAmeerpet }

/-- The record built by `api_track` from the parsed pieces (the `item` dict of
line 142, after `safe_put_item` normalized `BusID` and `TimeStamp`). -/
noncomputable def mkItem (r : RawReport) (la lo speed : PyQ) (bi : BusInfo) (tsn : ℤ)
    (m : String × PyF) : Item :=
  ⟨strUpper (normBusId r), tsn, la, lo, speed, statusOf r, bi.route, m.1, m.2⟩

/-! ### Basic lemmas about the geometry -/

theorem haversine_km_def (lat1 lon1 lat2 lon2 : ℝ) :
    haversine_km lat1 lon1 lat2 lon2 =
      2 * 6371.0 * atan2 (Real.sqrt (havA lat1 lon1 lat2 lon2))
        (Real.sqrt (1 - havA lat1 lon1 lat2 lon2)) := rfl

theorem atan2_nonneg (y x : ℝ) (hy : 0 ≤ y) (hx : 0 ≤ x) : 0 ≤ atan2 y x := by
  unfold atan2
  rcases lt_or_eq_of_le hx with h | h
  · rw [if_pos h]
    have := Real.arctan_strictMono.monotone (div_nonneg hy h.le)
    simpa [Real.arctan_zero] using this
  · rw [if_neg (by rw [← h]; exact lt_irrefl 0), if_neg (by rw [← h]; exact lt_irrefl 0)]
    by_cases hy0 : 0 < y
    · rw [if_pos hy0]
      positivity
    · rw [if_neg hy0, if_neg (by exact not_lt.mpr hy)]

theorem haversine_nonneg (lat1 lon1 lat2 lon2 : ℝ) :
    0 ≤ haversine_km lat1 lon1 lat2 lon2 := by
  rw [haversine_km_def]
  have := atan2_nonneg (Real.sqrt (havA lat1 lon1 lat2 lon2))
    (Real.sqrt (1 - havA lat1 lon1 lat2 lon2)) (Real.sqrt_nonneg _) (Real.sqrt_nonneg _)
  nlinarith

/-! ### The first-occurrence minimum computed by `min(..., key=...)` -/

theorem minR_decomp (d : String × ℝ) (l : List (String × ℝ)) :
    ∃ l1 l2, d :: l = l1 ++ minR d l :: l2 ∧
      (∀ x ∈ l1, (minR d l).2 < x.2) ∧ (∀ x ∈ l2, (minR d l).2 ≤ x.2) := by
  induction l generalizing d with
  | nil => exact ⟨[], [], rfl, by simp, by simp⟩
  | cons x t ih =>
    have hstep : minR d (x :: t) = minR (if x.2 < d.2 then x else d) t := rfl
    by_cases hx : x.2 < d.2
    · rw [hstep, if_pos hx]
      obtain ⟨l1, l2, hdec, h1, h2⟩ := ih x
      have hrx : (minR x t).2 ≤ x.2 := by
        cases l1 with
        | nil =>
            have : x = minR x t ∧ t = l2 := by simpa using hdec
            rw [← this.1]
        | cons a l1' =>
            have ha : x = a ∧ t = l1' ++ minR x t :: l2 := by simpa using hdec
            exact (h1 x (by rw [ha.1]; exact List.mem_cons_self a l1')).le
      refine ⟨d :: l1, l2, ?_, ?_, h2⟩
      · rw [List.cons_append, ← hdec]
      · intro y hy
        rcases List.mem_cons.mp hy with rfl | hy'
        · exact lt_of_le_of_lt hrx hx
        · exact h1 y hy'
    · rw [hstep, if_neg hx]
      obtain ⟨l1, l2, hdec, h1, h2⟩ := ih d
      cases l1 with
      | nil =>
        have hd : d = minR d t ∧ t = l2 := by simpa using hdec
        refine ⟨[], x :: l2, ?_, by simp, ?_⟩
        · rw [List.nil_append, ← hd.1, hd.2]
        · intro y hy
          rcases List.mem_cons.mp hy with rfl | hy'
          · rw [← hd.1]; exact le_of_not_lt hx
          · exact h2 y hy'
      | cons a l1' =>
        have ha : d = a ∧ t = l1' ++ minR d t :: l2 := by simpa using hdec
        have hrd : (minR d t).2 < d.2 :=
          h1 d (by rw [ha.1]; exact List.mem_cons_self a l1')
        refine ⟨d :: x :: l1', l2, ?_, ?_, h2⟩
        · rw [List.cons_append, List.cons_append, ← ha.2]
        · intro y hy
          rcases List.mem_cons.mp hy with rfl | hy'
          · exact hrd
          rcases List.mem_cons.mp hy' with rfl | hy''
          · exact lt_of_lt_of_le hrd (le_of_not_lt hx)
          · exact h1 y (List.mem_cons_of_mem a hy'')

theorem minR_le (d : String × ℝ) (l : List (String × ℝ)) :
    ∀ x ∈ d :: l, (minR d l).2 ≤ x.2 := by
  obtain ⟨l1, l2, hdec, h1, h2⟩ := minR_decomp d l
  intro x hx
  rw [hdec] at hx
  rcases List.mem_append.mp hx with hx1 | hx2
  · exact (h1 x hx1).le
  · rcases List.mem_cons.mp hx2 with rfl | hx3
    · exact le_refl _
    · exact h2 x hx3

theorem minSnd_fin (d : String × ℝ) (l : List (String × ℝ)) :
    minSnd (d.1, .fin d.2) (l.map fun p => (p.1, PyF.fin p.2)) =
      ((minR d l).1, .fin (minR d l).2) := by
  induction l generalizing d with
  | nil => rfl
  | cons x t ih =>
    simp only [List.map_cons, minSnd, List.foldl_cons, minR]
    by_cases h : x.2 < d.2
    · rw [if_pos (show PyF.ltP (.fin x.2) (.fin d.2) from h),
        if_pos h]
      simpa [minSnd, minR] using ih x
    · rw [if_neg (show ¬PyF.ltP (.fin x.2) (.fin d.2) from h),
        if_neg h]
      simpa [minSnd, minR] using ih d

theorem map_decomp {α β : Type} (g : α → β) :
    ∀ (l : List α) (L1 L2 : List β) (r : β), l.map g = L1 ++ r :: L2 →
      ∃ s1 s s2, l = s1 ++ s :: s2 ∧ s1.map g = L1 ∧ g s = r ∧ s2.map g = L2 := by
  intro l
  induction l with
  | nil =>
    intro L1 L2 r h
    rw [List.map_nil] at h
    exact absurd h.symm (List.append_ne_nil_of_right_ne_nil L1 (List.cons_ne_nil r L2))
  | cons a t ih =>
    intro L1 L2 r h
    cases L1 with
    | nil =>
      rw [List.map_cons, List.nil_append] at h
      injection h with h1 h2
      exact ⟨[], a, t, rfl, rfl, h1, h2⟩
    | cons b L1' =>
      rw [List.map_cons, List.cons_append] at h
      injection h with h1 h2
      obtain ⟨s1, s, s2, e1, e2, e3, e4⟩ := ih L1' L2 r h2
      exact ⟨a :: s1, s, s2, by rw [List.cons_append, e1], by rw [List.map_cons, h1, e2], e3, e4⟩

/-! ### Claim C8 -/

/-- C8: the distance function is symmetric — `distanceKm(a, b) = distanceKm(b, a)`
for all coordinate pairs — and `distanceKm(a, a) = 0` for every pair. -/
theorem c8_distance_symmetric_and_zero_on_diagonal (lat1 lon1 lat2 lon2 : ℝ) :
    haversine_km lat1 lon1 lat2 lon2 = haversine_km lat2 lon2 lat1 lon1 ∧
      haversine_km lat1 lon1 lat1 lon1 = 0 := by
  constructor
  · rw [haversine_km_def, haversine_km_def]
    have ha : havA lat2 lon2 lat1 lon1 = havA lat1 lon1 lat2 lon2 := by
      unfold havA
      have e1 : radians (lat1 - lat2) / 2 = -(radians (lat2 - lat1) / 2) := by
        unfold radians; ring
      have e2 : radians (lon1 - lon2) / 2 = -(radians (lon2 - lon1) / 2) := by
        unfold radians; ring
      rw [e1, e2, Real.sin_neg, Real.sin_neg]
      ring
    rw [ha]
  · rw [haversine_km_def]
    have ha : havA lat1 lon1 lat1 lon1 = 0 := by
      unfold havA
      have e1 : radians (lat1 - lat1) / 2 = 0 := by unfold radians; ring
      have e2 : radians (lon1 - lon1) / 2 = 0 := by unfold radians; ring
      rw [e1, e2, Real.sin_zero]
      ring
    rw [ha]
    rw [show (1 : ℝ) - 0 = 1 by ring]
    rw [Real.sqrt_zero, Real.sqrt_one]
    unfold atan2
    rw [if_pos one_pos]
    rw [show (0 : ℝ) / 1 = 0 by ring, Real.arctan_zero]
    ring

/-! ### Claim C10 -/

/-- C10: when `speed_kmph` is present but does not parse as a float, the whole
ingestion fails with no HistoryStore write and no alert; the failure happens
before the unknown-vehicle check (no hypothesis on `bus_id` is needed and the
response is the float-conversion error, not `Unknown bus_id`). -/
theorem c10_speed_parse_failure_precedes_vehicle_check (r : RawReport) (sp : ℚ) (now : ℤ)
    (pf : Bool) (la lo : PyQ) (v : JVal) (e : String)
    (hla : parseCoord ("lat") r.lat = .ok la)
    (hlo : parseCoord ("lon") r.lon = .ok lo)
    (hv : r.speed_kmph = some v)
    (he : pyFloat v = .error e) :
    apiTrack r sp now pf = ⟨.err e 500, [], []⟩ := by
  simp only [apiTrack, apiTrackPre, speedVal, hla, hlo, hv, he]

/-- Witness for C10: a report with unknown vehicle id 99Z and speed "fast" is
rejected with the float-conversion error, not with the unknown-vehicle error. -/
theorem c10_witness :
    apiTrack reportBadSpeed 20 0 false =
      ⟨.err ("could not convert string to float: fast") 500, [], []⟩ :=
  c10_speed_parse_failure_precedes_vehicle_check reportBadSpeed 20 0 false
    (.fin (17.4376 : ℚ)) (.fin (78.4483 : ℚ)) (.jstr "fast")
    ("could not convert string to float: fast") rfl rfl rfl rfl

/-! ### Claim C7 -/

/-- C7 counterexample: the report whose latitude is the string `nan` parses
successfully (`float("nan")` is a float), is ingested successfully and is
persisted — it does not fail with `MalformedCoordinate`, contradicting the
claim that non-finite coordinates are rejected. -/
theorem c7_counterexample_nan_coordinate_is_ingested :
    (apiTrack reportNan 20 0 false).resp.isOk = true ∧
      (apiTrack reportNan 20 0 false).writes.length = 1 := by
  exact ⟨rfl, rfl⟩

/-- C7 (amended): ingestion fails with the coordinate-conversion error, with
nothing persisted and no alert, exactly when `lat` (or, `lat` parsing fine,
`lon`) fails to parse as a float; inputs parsing to `nan` or `inf` are accepted
by the parse step (`nan` flows through the whole pipeline and is persisted). -/
theorem c7_amended_unparseable_coordinate_fails (r : RawReport) (sp : ℚ) (now : ℤ)
    (pf : Bool) (e : String) :
    (parseCoord ("lat") r.lat = .error e → apiTrack r sp now pf = ⟨.err e 500, [], []⟩) ∧
    (∀ la, parseCoord ("lat") r.lat = .ok la → parseCoord ("lon") r.lon = .error e →
      apiTrack r sp now pf = ⟨.err e 500, [], []⟩) := by
  constructor
  · intro h
    simp only [apiTrack, apiTrackPre, h]
  · intro la hla h
    simp only [apiTrack, apiTrackPre, hla, h]

/-- Witness for C7 (amended): latitude "abc" is rejected with the
float-conversion error and nothing is persisted. -/
theorem c7_witness :
    apiTrack reportUnknownBadLat 20 0 false =
      ⟨.err ("could not convert string to float: abc") 500, [], []⟩ :=
  (c7_amended_unparseable_coordinate_fails reportUnknownBadLat 20 0 false
    ("could not convert string to float: abc")).1 rfl

/-! ### Claim C4 -/

/-- C4 counterexample: a report with unknown vehicle id 99Z and latitude "abc"
does not fail with the `Unknown bus_id` error — the coordinate conversion runs
first and its error (a 500, not the 400 unknown-vehicle response) is reported.
(The no-write part of the claim does hold on this input.) -/
theorem c4_counterexample_coordinate_checked_before_vehicle :
    (apiTrack reportUnknownBadLat 20 0 false).resp =
        .err ("could not convert string to float: abc") 500 ∧
      (apiTrack reportUnknownBadLat 20 0 false).resp.code ≠ 400 ∧
      (apiTrack reportUnknownBadLat 20 0 false).writes = [] := by
  refine ⟨rfl, ?_, rfl⟩
  intro h
  have h' : (500 : ℕ) = 400 := h
  exact absurd h' (by decide)

/-- C4 (amended): a report whose normalized vehicle id is absent from the
catalog fails with `UnknownVehicle` (the 400 `Unknown bus_id` response) and
performs no HistoryStore write, provided its coordinates and (when present)
speed parse as floats first — the coordinate and speed conversions precede the
vehicle check; the timestamp check does come after the vehicle check. -/
theorem c4_amended_unknown_vehicle_rejected_after_numeric_parses (r : RawReport)
    (sp : ℚ) (now : ℤ) (pf : Bool) (la lo speed : PyQ)
    (hla : parseCoord ("lat") r.lat = .ok la)
    (hlo : parseCoord ("lon") r.lon = .ok lo)
    (hsp : speedVal r sp = .ok speed)
    (hbus : lookupBus (normBusId r) = none) :
    apiTrack r sp now pf = ⟨.err ("Unknown bus_id " ++ normBusId r) 400, [], []⟩ := by
  simp only [apiTrack, apiTrackPre, hla, hlo, hsp, hbus]

/-- Witness for C4 (amended): the all-valid report for the unknown vehicle 99Z
is rejected with the 400 unknown-vehicle response and no write. -/
theorem c4_witness :
    apiTrack reportUnknown 20 0 false =
      ⟨.err ("Unknown bus_id 99Z") 400, [], []⟩ :=
  c4_amended_unknown_vehicle_rejected_after_numeric_parses reportUnknown 20 0 false
    (.fin (17.4376 : ℚ)) (.fin (78.4483 : ℚ)) (.fin 20) rfl rfl rfl rfl

/-! ### Anatomy of the pipeline -/

theorem truncQ_intCast (n : ℤ) : truncQ (n : ℚ) = n := by
  unfold truncQ
  split
  · exact Int.floor_intCast n
  · exact Int.ceil_intCast n

theorem minSnd_mem (d : String × PyF) (l : List (String × PyF)) : minSnd d l ∈ d :: l := by
  induction l generalizing d with
  | nil => simp [minSnd]
  | cons x t ih =>
    have hstep : minSnd d (x :: t) = minSnd (if PyF.ltP x.2 d.2 then x else d) t := rfl
    rw [hstep]
    rcases List.mem_cons.mp (ih (if PyF.ltP x.2 d.2 then x else d)) with heq | hmem
    · rw [heq]
      by_cases hc : PyF.ltP x.2 d.2
      · rw [if_pos hc]; exact List.mem_cons_of_mem _ (List.mem_cons_self _ _)
      · rw [if_neg hc]; exact List.mem_cons_self _ _
    · exact List.mem_cons_of_mem _ (List.mem_cons_of_mem _ hmem)

theorem havPy_ok_nonneg (la lo : PyQ) (s : Stop) (d : PyF) (h : havPy la lo s = .ok d) :
    ∀ x, d = .fin x → 0 ≤ x := by
  cases la <;> cases lo <;> simp only [havPy] at h <;> cases h <;> intro x hx <;>
    first
      | (cases hx; exact haversine_nonneg _ _ _ _)
      | cases hx

theorem distsOf_nonneg (la lo : PyQ) (stops : List Stop) (ds : List (String × PyF))
    (h : distsOf la lo stops = .ok ds) :
    ∀ p ∈ ds, ∀ d, p.2 = .fin d → 0 ≤ d := by
  induction stops generalizing ds with
  | nil =>
    cases h
    intro p hp
    simp at hp
  | cons s rest ih =>
    unfold distsOf at h
    rcases hh : havPy la lo s with e | d
    · rw [hh] at h; cases h
    · rw [hh] at h
      rcases hrest : distsOf la lo rest with e | ds'
      · rw [hrest] at h; cases h
      · rw [hrest] at h
        cases h
        intro p hp dd hpd
        rcases List.mem_cons.mp hp with rfl | hp'
        · exact havPy_ok_nonneg la lo s d hh dd hpd
        · exact ih ds' hrest p hp' dd hpd

theorem distsOf_fin (x y : ℚ) (stops : List Stop) :
    distsOf (.fin x) (.fin y) stops =
      .ok (stops.map fun s =>
        (s.name, PyF.fin (haversine_km (x : ℝ) (y : ℝ) (s.lat : ℝ) (s.lon : ℝ)))) := by
  induction stops with
  | nil => rfl
  | cons s rest ih => simp only [distsOf, havPy, ih, List.map_cons]

theorem lookupBus_props (k : String) (bi : BusInfo) (h : lookupBus k = some bi) :
    strTrim k = k ∧ strUpper k = k ∧ k ≠ "" ∧ ∃ s0 srest, bi.stops = s0 :: srest := by
  unfold lookupBus buses at h
  simp only [List.lookup] at h
  split at h
  · rename_i hk
    have hk' : k = "10A" := eq_of_beq hk
    cases h
    subst hk'
    exact ⟨rfl, rfl, by decide, _, _, rfl⟩
  · split at h
    · rename_i hk
      have hk' : k = "100M" := eq_of_beq hk
      cases h
      subst hk'
      exact ⟨rfl, rfl, by decide, _, _, rfl⟩
    · split at h
      · rename_i hk
        have hk' : k = "65G" := eq_of_beq hk
        cases h
        subst hk'
        exact ⟨rfl, rfl, by decide, _, _, rfl⟩
      · cases h

/-- Fully reduced form of `api_track` once every parse step has succeeded: only
the proximity comparison, the `format_ts` range check and the publish outcome
remain. -/
theorem apiTrack_eq_of_parses (r : RawReport) (sp : ℚ) (now : ℤ) (pf : Bool)
    (la lo speed : PyQ) (bi : BusInfo) (d0 : String × PyF) (drest : List (String × PyF))
    (tsn : ℤ) (radius : PyQ)
    (hla : parseCoord ("lat") r.lat = .ok la)
    (hlo : parseCoord ("lon") r.lon = .ok lo)
    (hsp : speedVal r sp = .ok speed)
    (hbus : lookupBus (normBusId r) = some bi)
    (hds : distsOf la lo bi.stops = .ok (d0 :: drest))
    (hblank : ¬strTrim (normBusId r) = "")
    (hts : normalizeTs (tsValOf r now) now = .ok tsn)
    (hrad : alertRadius r = .ok radius) :
    apiTrack r sp now pf =
      (if PyF.leP (minSnd d0 drest).2 radius.toF then
        (if formatTsOk tsn = true then
          (if pf = true then
            ⟨.err ("publish failed") 500, [mkItem r la lo speed bi tsn (minSnd d0 drest)], []⟩
           else
            ⟨.ok (mkItem r la lo speed bi tsn (minSnd d0 drest)),
             [mkItem r la lo speed bi tsn (minSnd d0 drest)],
             [⟨normBusId r, (minSnd d0 drest).1⟩]⟩)
         else
          ⟨.err ("year is out of range") 500,
           [mkItem r la lo speed bi tsn (minSnd d0 drest)], []⟩)
       else
        ⟨.ok (mkItem r la lo speed bi tsn (minSnd d0 drest)),
         [mkItem r la lo speed bi tsn (minSnd d0 drest)], []⟩) := by
  by_cases hle : PyF.leP (minSnd d0 drest).2 radius.toF
  · by_cases hfmt : formatTsOk tsn = true
    · cases pf
      · simp [apiTrack, apiTrackPre, hla, hlo, hsp, hbus, hds, if_neg hblank, hts, hrad,
          if_pos hle, if_pos hfmt, mkItem]
      · simp [apiTrack, apiTrackPre, hla, hlo, hsp, hbus, hds, if_neg hblank, hts, hrad,
          if_pos hle, if_pos hfmt, mkItem]
    · simp [apiTrack, apiTrackPre, hla, hlo, hsp, hbus, hds, if_neg hblank, hts, hrad,
        if_pos hle, if_neg hfmt, mkItem]
  · simp [apiTrack, apiTrackPre, hla, hlo, hsp, hbus, hds, if_neg hblank, hts, hrad,
      if_neg hle, mkItem]

theorem apiTrackPre_done_pubs_nil (r : RawReport) (sp : ℚ) (now : ℤ) (o : Outcome)
    (h : apiTrackPre r sp now = .done o) : o.pubs = [] := by
  simp only [apiTrackPre] at h
  repeat' split at h
  all_goals
    first
      | (injection h with h1; rw [← h1])
      | exact PreOut.noConfusion h

theorem apiTrack_pubs_le_one (r : RawReport) (sp : ℚ) (now : ℤ) (pf : Bool) :
    (apiTrack r sp now pf).pubs.length ≤ 1 := by
  unfold apiTrack
  rcases hpre : apiTrackPre r sp now with o | ⟨item, b, st⟩
  · have := apiTrackPre_done_pubs_nil r sp now o hpre
    simp [this]
  · by_cases hpf : pf = true <;> simp [hpf]

/-- Every successful `api_track` call decomposes into successful parse results
plus one of the two alert outcomes. -/
theorem apiTrack_ok_cases (r : RawReport) (sp : ℚ) (now : ℤ) (pf : Bool)
    (hok : (apiTrack r sp now pf).resp.isOk = true) :
    ∃ la lo speed bi d0 drest tsn radius,
      parseCoord ("lat") r.lat = .ok la ∧
      parseCoord ("lon") r.lon = .ok lo ∧
      speedVal r sp = .ok speed ∧
      lookupBus (normBusId r) = some bi ∧
      distsOf la lo bi.stops = .ok (d0 :: drest) ∧
      normalizeTs (tsValOf r now) now = .ok tsn ∧
      alertRadius r = .ok radius ∧
      ((PyF.leP (minSnd d0 drest).2 radius.toF ∧ formatTsOk tsn = true ∧ pf = false ∧
          apiTrack r sp now pf =
            ⟨.ok (mkItem r la lo speed bi tsn (minSnd d0 drest)),
             [mkItem r la lo speed bi tsn (minSnd d0 drest)],
             [⟨normBusId r, (minSnd d0 drest).1⟩]⟩) ∨
        (¬PyF.leP (minSnd d0 drest).2 radius.toF ∧
          apiTrack r sp now pf =
            ⟨.ok (mkItem r la lo speed bi tsn (minSnd d0 drest)),
             [mkItem r la lo speed bi tsn (minSnd d0 drest)], []⟩)) := by
  rcases hla : parseCoord ("lat") r.lat with e | la
  · simp [apiTrack, apiTrackPre, hla, Resp.isOk] at hok
  rcases hlo : parseCoord ("lon") r.lon with e | lo
  · simp [apiTrack, apiTrackPre, hla, hlo, Resp.isOk] at hok
  rcases hsv : speedVal r sp with e | speed
  · simp [apiTrack, apiTrackPre, hla, hlo, hsv, Resp.isOk] at hok
  rcases hbus : lookupBus (normBusId r) with _ | bi
  · simp [apiTrack, apiTrackPre, hla, hlo, hsv, hbus, Resp.isOk] at hok
  obtain ⟨htrim, hupper, hne, s0, srest, hstops⟩ := lookupBus_props _ _ hbus
  have hblank : ¬strTrim (normBusId r) = "" := by rw [htrim]; exact hne
  rcases hds : distsOf la lo bi.stops with e | ds
  · simp [apiTrack, apiTrackPre, hla, hlo, hsv, hbus, hds, Resp.isOk] at hok
  rcases ds with _ | ⟨d0, drest⟩
  · simp [apiTrack, apiTrackPre, hla, hlo, hsv, hbus, hds, Resp.isOk] at hok
  rcases hts : normalizeTs (tsValOf r now) now with e | tsn
  · simp [apiTrack, apiTrackPre, hla, hlo, hsv, hbus, hds, if_neg hblank, hts,
      Resp.isOk] at hok
  rcases hrad : alertRadius r with e | radius
  · simp [apiTrack, apiTrackPre, hla, hlo, hsv, hbus, hds, if_neg hblank, hts, hrad,
      Resp.isOk] at hok
  have hEq := apiTrack_eq_of_parses r sp now pf la lo speed bi d0 drest tsn radius
    hla hlo hsv hbus hds hblank hts hrad
  refine ⟨la, lo, speed, bi, d0, drest, tsn, radius, rfl, rfl, rfl, rfl, hds, rfl, rfl, ?_⟩
  by_cases hle : PyF.leP (minSnd d0 drest).2 radius.toF
  · rw [hEq, if_pos hle] at hok ⊢
    by_cases hfmt : formatTsOk tsn = true
    · rw [if_pos hfmt] at hok ⊢
      cases pf
      · left
        rw [if_neg (by decide)]
        exact ⟨hle, hfmt, rfl, rfl⟩
      · rw [if_pos rfl] at hok
        simp [Resp.isOk] at hok
    · rw [if_neg hfmt] at hok
      simp [Resp.isOk] at hok
  · rw [hEq, if_neg hle] at hok ⊢
    exact .inr ⟨hle, rfl⟩

/-! ### Claim C2 -/

/-- C2: every successful ingest performs exactly one HistoryStore write; it
publishes exactly one alert when the computed distance is ≤ the report's alert
radius (which defaults to 0.5 km when the report gives none), zero alerts when
the comparison fails (in particular when the distance is strictly greater), and
no call — successful or not — ever publishes more than once. -/
theorem c2_one_write_zero_or_one_publish (r : RawReport) (sp : ℚ) (now : ℤ) (pf : Bool) :
    (apiTrack r sp now pf).pubs.length ≤ 1 ∧
    (r.alert_radius_km = none → alertRadius r = .ok (.fin (1 / 2))) ∧
    ((apiTrack r sp now pf).resp.isOk = true →
      (apiTrack r sp now pf).writes.length = 1 ∧
      ∀ radius, alertRadius r = .ok radius →
        ((PyF.leP (apiTrack r sp now pf).resp.itemOf.distanceToStopKm radius.toF →
            (apiTrack r sp now pf).pubs.length = 1) ∧
          (¬PyF.leP (apiTrack r sp now pf).resp.itemOf.distanceToStopKm radius.toF →
            (apiTrack r sp now pf).pubs.length = 0))) := by
  refine ⟨apiTrack_pubs_le_one r sp now pf, fun h => by simp [alertRadius, h], fun hok => ?_⟩
  obtain ⟨la, lo, speed, bi, d0, drest, tsn, radius, hla, hlo, hsv, hbus, hds, hts, hrad, hcase⟩ :=
    apiTrack_ok_cases r sp now pf hok
  rcases hcase with ⟨hle, hfmt, hpf, hO⟩ | ⟨hle, hO⟩
  · have hdist : (apiTrack r sp now pf).resp.itemOf.distanceToStopKm =
        (minSnd d0 drest).2 := by rw [hO]; rfl
    refine ⟨by rw [hO]; rfl, fun rad hrad' => ?_⟩
    rw [hrad] at hrad'
    injection hrad' with hr
    subst hr
    rw [hdist]
    exact ⟨fun _ => by rw [hO]; rfl, fun hnot => absurd hle hnot⟩
  · have hdist : (apiTrack r sp now pf).resp.itemOf.distanceToStopKm =
        (minSnd d0 drest).2 := by rw [hO]; rfl
    refine ⟨by rw [hO]; rfl, fun rad hrad' => ?_⟩
    rw [hrad] at hrad'
    injection hrad' with hr
    subst hr
    rw [hdist]
    exact ⟨fun hle' => absurd hle' hle, fun _ => by rw [hO]; rfl⟩

/-- Witness for C2 at the ingested nan-coordinate report. -/
theorem c2_witness :
    (apiTrack reportNan 20 0 false).writes.length = 1 ∧
      (apiTrack reportNan 20 0 false).pubs.length ≤ 1 :=
  ⟨((c2_one_write_zero_or_one_publish reportNan 20 0 false).2.2 rfl).1,
    (c2_one_write_zero_or_one_publish reportNan 20 0 false).1⟩

/-! ### Claim C5 -/

/-- C5 counterexample: the otherwise valid report carrying the timestamp `-5`
succeeds and persists a record whose timestampEpochSeconds is the negative
integer `-5`, refuting the invariant. -/
theorem c5_counterexample_negative_timestamp_persisted :
    (apiTrack reportNegTs 20 100 false).writes.map Item.timeStamp = [(-5 : ℤ)] ∧
      (apiTrack reportNegTs 20 100 false).resp.isOk = true ∧ (-5 : ℤ) < 0 := by
  have hEq := apiTrack_eq_of_parses reportNegTs 20 100 false
    (.fin 17.4376) (.fin 78.4483) (.fin 20) bus10A
    ("Secunderabad", .fin (haversine_km ((17.4376 : ℚ) : ℝ) ((78.4483 : ℚ) : ℝ)
      ((17.4399 : ℚ) : ℝ) ((78.4983 : ℚ) : ℝ)))
    [ ("Begumpet", .fin (haversine_km ((17.4376 : ℚ) : ℝ) ((78.4483 : ℚ) : ℝ)
        ((17.4444 : ℚ) : ℝ) ((78.4611 : ℚ) : ℝ)))
    , ("Ameerpet", .fin (haversine_km ((17.4376 : ℚ) : ℝ) ((78.4483 : ℚ) : ℝ)
        ((17.4375 : ℚ) : ℝ) ((78.4483 : ℚ) : ℝ)))
    , ("Punjagutta", .fin (haversine_km ((17.4376 : ℚ) : ℝ) ((78.4483 : ℚ) : ℝ)
        ((17.4294 : ℚ) : ℝ) ((78.4506 : ℚ) : ℝ)))
    , ("Mehdipatnam", .fin (haversine_km ((17.4376 : ℚ) : ℝ) ((78.4483 : ℚ) : ℝ)
        ((17.3956 : ℚ) : ℝ) ((78.4403 : ℚ) : ℝ))) ]
    (-5) (.fin (0.5 : ℚ)) rfl rfl rfl rfl rfl (by decide) rfl rfl
  have hfmt : formatTsOk ((-5 : ℤ)) = true := by decide
  rw [hEq, if_pos hfmt, if_neg (show ¬(false = true) by decide)]
  refine ⟨?_, ?_, by decide⟩
  · split <;> rfl
  · split <;> rfl

/-- C5 (amended): every record a successful ingest persists has a non-empty
vehicleId equal to its own upper-casing and a finite distanceToStopKm ≥ 0, and
when the report omits its timestamp the persisted timestampEpochSeconds equals
the current clock value (hence is non-negative whenever the clock is); a
negative supplied timestamp is persisted as-is, so the unconditional
non-negativity of the original claim fails. -/
theorem c5_amended_persisted_record_invariants (r : RawReport) (sp : ℚ) (now : ℤ) (pf : Bool)
    (hok : (apiTrack r sp now pf).resp.isOk = true) :
    (apiTrack r sp now pf).resp.itemOf.busId ≠ "" ∧
    strUpper ((apiTrack r sp now pf).resp.itemOf.busId) =
      (apiTrack r sp now pf).resp.itemOf.busId ∧
    (∀ d, (apiTrack r sp now pf).resp.itemOf.distanceToStopKm = .fin d → 0 ≤ d) ∧
    (r.timestamp = none → (apiTrack r sp now pf).resp.itemOf.timeStamp = now) := by
  obtain ⟨la, lo, speed, bi, d0, drest, tsn, radius, hla, hlo, hsv, hbus, hds, hts, hrad, hcase⟩ :=
    apiTrack_ok_cases r sp now pf hok
  obtain ⟨htrim, hupper, hne, s0, srest, hstops⟩ := lookupBus_props _ _ hbus
  have hitem : (apiTrack r sp now pf).resp.itemOf =
      mkItem r la lo speed bi tsn (minSnd d0 drest) := by
    rcases hcase with ⟨_, _, _, hO⟩ | ⟨_, hO⟩ <;> (rw [hO]; rfl)
  rw [hitem]
  refine ⟨?_, ?_, ?_, ?_⟩
  · show strUpper (normBusId r) ≠ ""
    rw [hupper]; exact hne
  · show strUpper (strUpper (normBusId r)) = strUpper (normBusId r)
    rw [hupper]
    exact hupper
  · intro d hd
    exact distsOf_nonneg la lo bi.stops (d0 :: drest) hds _ (minSnd_mem d0 drest) d hd
  · intro hnone
    show tsn = now
    rw [show tsValOf r now = .numV (now : ℚ) from by simp [tsValOf, hnone]] at hts
    simp [normalizeTs, truncQ_intCast] at hts
    exact hts.symm

/-- Witness for C5 (amended) at the ingested nan-coordinate report. -/
theorem c5_witness :
    (apiTrack reportNan 20 0 false).resp.itemOf.busId ≠ "" ∧
      strUpper ((apiTrack reportNan 20 0 false).resp.itemOf.busId) =
        (apiTrack reportNan 20 0 false).resp.itemOf.busId ∧
      (∀ d, (apiTrack reportNan 20 0 false).resp.itemOf.distanceToStopKm = .fin d → 0 ≤ d) ∧
      (reportNan.timestamp = none →
        (apiTrack reportNan 20 0 false).resp.itemOf.timeStamp = 0) :=
  c5_amended_persisted_record_invariants reportNan 20 0 false rfl

/-! ### Claim C6 -/

/-- C6: timestamp normalization — an absent (or empty, or null) timestamp
becomes the current time; the ISO string `2025-01-01T00:00:00Z` normalizes to
exactly 1735689600 epoch seconds; a datetime-like value converts through its
epoch value; a numeric value is truncated to integer seconds; and a report
whose timestamp string is unparseable makes the whole ingestion fail with the
invalid-timestamp error, persisting nothing. -/
theorem c6_timestamp_normalization (r : RawReport) (sp : ℚ) (now : ℤ) (pf : Bool)
    (s : String) (q e : ℚ) :
    normalizeTs .noneV now = .ok now ∧
    normalizeTs (.strV "") now = .ok now ∧
    normalizeTs (.strV ("2025-01-01T00:00:00Z")) now = .ok 1735689600 ∧
    normalizeTs (.dtV e) now = .ok (truncQ e) ∧
    normalizeTs (.numV q) now = .ok (truncQ q) ∧
    (r.timestamp = none → (apiTrack r sp now pf).resp.isOk = true →
      (apiTrack r sp now pf).resp.itemOf.timeStamp = now) ∧
    (∀ la lo speed bi d0 drest,
      parseCoord ("lat") r.lat = .ok la → parseCoord ("lon") r.lon = .ok lo →
      speedVal r sp = .ok speed → lookupBus (normBusId r) = some bi →
      distsOf la lo bi.stops = .ok (d0 :: drest) →
      r.timestamp = some (.jstr s) → s ≠ "" → fromIso (replaceZ s.toList) = none →
      apiTrack r sp now pf = ⟨.err ("Invalid isoformat string: " ++ s) 500, [], []⟩) := by
  refine ⟨rfl, rfl, rfl, rfl, rfl, ?_, ?_⟩
  · intro hnone hok
    obtain ⟨la, lo, speed, bi, d0, drest, tsn, radius, hla, hlo, hsv, hbus, hds, hts, hrad,
      hcase⟩ := apiTrack_ok_cases r sp now pf hok
    have hitem : (apiTrack r sp now pf).resp.itemOf =
        mkItem r la lo speed bi tsn (minSnd d0 drest) := by
      rcases hcase with ⟨_, _, _, hO⟩ | ⟨_, hO⟩ <;> (rw [hO]; rfl)
    rw [hitem]
    show tsn = now
    rw [show tsValOf r now = .numV (now : ℚ) from by simp [tsValOf, hnone]] at hts
    simp [normalizeTs, truncQ_intCast] at hts
    exact hts.symm
  · intro la lo speed bi d0 drest hla hlo hsv hbus hds htsf hs0 hiso
    obtain ⟨htrim, hupper, hne, s0, srest, hstops⟩ := lookupBus_props _ _ hbus
    have hblank : ¬strTrim (normBusId r) = "" := by rw [htrim]; exact hne
    have hts : normalizeTs (tsValOf r now) now =
        .error ("Invalid isoformat string: " ++ s) := by
      simp only [tsValOf, htsf, normalizeTs, if_neg hs0, hiso]
    simp only [apiTrack, apiTrackPre, hla, hlo, hsv, hbus, hds, if_neg hblank, hts]

/-- Witness for C6: the literal epoch example, plus a concrete unparseable
timestamp being rejected with no write. -/
theorem c6_witness :
    normalizeTs (.strV ("2025-01-01T00:00:00Z")) 0 = .ok 1735689600 ∧
      apiTrack reportBadTs 20 0 false =
        ⟨.err ("Invalid isoformat string: not-a-date") 500, [], []⟩ := by
  have h := c6_timestamp_normalization reportBadTs 20 0 false ("not-a-date") 0 0
  refine ⟨h.2.2.1, ?_⟩
  exact h.2.2.2.2.2.2 (.fin 17.4376) (.fin 78.4483) (.fin 20) bus10A
    ("Secunderabad", .fin (haversine_km ((17.4376 : ℚ) : ℝ) ((78.4483 : ℚ) : ℝ)
      ((17.4399 : ℚ) : ℝ) ((78.4983 : ℚ) : ℝ)))
    [ ("Begumpet", .fin (haversine_km ((17.4376 : ℚ) : ℝ) ((78.4483 : ℚ) : ℝ)
        ((17.4444 : ℚ) : ℝ) ((78.4611 : ℚ) : ℝ)))
    , ("Ameerpet", .fin (haversine_km ((17.4376 : ℚ) : ℝ) ((78.4483 : ℚ) : ℝ)
        ((17.4375 : ℚ) : ℝ) ((78.4483 : ℚ) : ℝ)))
    , ("Punjagutta", .fin (haversine_km ((17.4376 : ℚ) : ℝ) ((78.4483 : ℚ) : ℝ)
        ((17.4294 : ℚ) : ℝ) ((78.4506 : ℚ) : ℝ)))
    , ("Mehdipatnam", .fin (haversine_km ((17.4376 : ℚ) : ℝ) ((78.4483 : ℚ) : ℝ)
        ((17.3956 : ℚ) : ℝ) ((78.4403 : ℚ) : ℝ))) ]
    rfl rfl rfl rfl rfl rfl (by decide) rfl

/-! ### Claim C1 -/

/-- C1: for every ingested report with finite parsed coordinates and a catalog
vehicle, the resolved next stop is a stop of that vehicle's route attaining the
minimal haversine distance to the report's coordinates, and every stop
occurring earlier in route order has strictly greater distance (stable
first-occurrence minimum, exactly what Python's `min` computes). -/
theorem c1_resolver_nearest_stop_first_occurrence (r : RawReport) (sp : ℚ) (now : ℤ)
    (pf : Bool) (la lo : ℚ)
    (hla : parseCoord ("lat") r.lat = .ok (.fin la))
    (hlo : parseCoord ("lon") r.lon = .ok (.fin lo))
    (bi : BusInfo) (hbus : lookupBus (normBusId r) = some bi)
    (hok : (apiTrack r sp now pf).resp.isOk = true) :
    ∃ s1 st s2, bi.stops = s1 ++ st :: s2 ∧
      (apiTrack r sp now pf).resp.itemOf.nextStop = st.name ∧
      (apiTrack r sp now pf).resp.itemOf.distanceToStopKm =
        .fin (haversine_km (la : ℝ) (lo : ℝ) (st.lat : ℝ) (st.lon : ℝ)) ∧
      (∀ x ∈ bi.stops, haversine_km (la : ℝ) (lo : ℝ) (st.lat : ℝ) (st.lon : ℝ) ≤
          haversine_km (la : ℝ) (lo : ℝ) (x.lat : ℝ) (x.lon : ℝ)) ∧
      (∀ x ∈ s1, haversine_km (la : ℝ) (lo : ℝ) (st.lat : ℝ) (st.lon : ℝ) <
          haversine_km (la : ℝ) (lo : ℝ) (x.lat : ℝ) (x.lon : ℝ)) := by
  obtain ⟨la', lo', speed, bi', d0, drest, tsn, radius, hla', hlo', hsv, hbus', hds, hts, hrad,
    hcase⟩ := apiTrack_ok_cases r sp now pf hok
  rw [hla] at hla'
  injection hla' with h1
  rw [hlo] at hlo'
  injection hlo' with h2
  rw [hbus] at hbus'
  injection hbus' with h3
  subst h1
  subst h2
  subst h3
  have hitem : (apiTrack r sp now pf).resp.itemOf =
      mkItem r (.fin la) (.fin lo) speed bi tsn (minSnd d0 drest) := by
    rcases hcase with ⟨_, _, _, hO⟩ | ⟨_, hO⟩ <;> (rw [hO]; rfl)
  rw [distsOf_fin] at hds
  injection hds with hds'
  set g : Stop → String × ℝ :=
    fun st => (st.name, haversine_km (la : ℝ) (lo : ℝ) (st.lat : ℝ) (st.lon : ℝ)) with hg
  have hcomp : bi.stops.map
      (fun st => (st.name, PyF.fin (haversine_km (la : ℝ) (lo : ℝ) (st.lat : ℝ) (st.lon : ℝ))))
      = (bi.stops.map g).map (fun p => (p.1, PyF.fin p.2)) := by
    rw [List.map_map]
    rfl
  rw [hcomp] at hds'
  rcases hL : bi.stops.map g with _ | ⟨p0, prest⟩
  · rw [hL] at hds'
    simp at hds'
  · rw [hL] at hds'
    simp only [List.map_cons] at hds'
    injection hds' with hd0 hdrest
    have hmin : minSnd d0 drest = ((minR p0 prest).1, .fin (minR p0 prest).2) := by
      rw [← hd0, ← hdrest]
      exact minSnd_fin p0 prest
    obtain ⟨l1, l2, hdec, hstrict, hle2⟩ := minR_decomp p0 prest
    have hmap : bi.stops.map g = l1 ++ minR p0 prest :: l2 := by
      rw [hL]; exact hdec
    obtain ⟨s1, st, s2, he1, he2, he3, he4⟩ := map_decomp g bi.stops l1 l2 (minR p0 prest) hmap
    refine ⟨s1, st, s2, he1, ?_, ?_, ?_, ?_⟩
    · rw [hitem]
      show (minSnd d0 drest).1 = st.name
      rw [hmin, ← he3]
    · rw [hitem]
      show (minSnd d0 drest).2 =
        .fin (haversine_km (la : ℝ) (lo : ℝ) (st.lat : ℝ) (st.lon : ℝ))
      rw [hmin, ← he3]
    · intro x hx
      have hgx : g x ∈ p0 :: prest := by rw [← hL]; exact List.mem_map_of_mem g hx
      have hle' := minR_le p0 prest (g x) hgx
      rw [← he3] at hle'
      exact hle'
    · intro x hx1
      have hgx : g x ∈ l1 := by rw [← he2]; exact List.mem_map_of_mem g hx1
      have hlt := hstrict (g x) hgx
      rw [← he3] at hlt
      exact hlt

/-- Witness for C1 at the scenario report for bus 10A. -/
theorem c1_witness :
    ∃ s1 st s2, bus10A.stops = s1 ++ st :: s2 ∧
      (apiTrack report10a 20 0 false).resp.itemOf.nextStop = st.name ∧
      (apiTrack report10a 20 0 false).resp.itemOf.distanceToStopKm =
        .fin (haversine_km ((17.4376 : ℚ) : ℝ) ((78.4483 : ℚ) : ℝ) (st.lat : ℝ) (st.lon : ℝ)) ∧
      (∀ x ∈ bus10A.stops,
        haversine_km ((17.4376 : ℚ) : ℝ) ((78.4483 : ℚ) : ℝ) (st.lat : ℝ) (st.lon : ℝ) ≤
          haversine_km ((17.4376 : ℚ) : ℝ) ((78.4483 : ℚ) : ℝ) (x.lat : ℝ) (x.lon : ℝ)) ∧
      (∀ x ∈ s1,
        haversine_km ((17.4376 : ℚ) : ℝ) ((78.4483 : ℚ) : ℝ) (st.lat : ℝ) (st.lon : ℝ) <
          haversine_km ((17.4376 : ℚ) : ℝ) ((78.4483 : ℚ) : ℝ) (x.lat : ℝ) (x.lon : ℝ)) := by
  refine c1_resolver_nearest_stop_first_occurrence report10a 20 0 false
    (17.4376 : ℚ) (78.4483 : ℚ) rfl rfl bus10A rfl ?_
  have hEq := apiTrack_eq_of_parses report10a 20 0 false
    (.fin 17.4376) (.fin 78.4483) (.fin 20) bus10A
    ("Secunderabad", .fin (haversine_km ((17.4376 : ℚ) : ℝ) ((78.4483 : ℚ) : ℝ)
      ((17.4399 : ℚ) : ℝ) ((78.4983 : ℚ) : ℝ)))
    [ ("Begumpet", .fin (haversine_km ((17.4376 : ℚ) : ℝ) ((78.4483 : ℚ) : ℝ)
        ((17.4444 : ℚ) : ℝ) ((78.4611 : ℚ) : ℝ)))
    , ("Ameerpet", .fin (haversine_km ((17.4376 : ℚ) : ℝ) ((78.4483 : ℚ) : ℝ)
        ((17.4375 : ℚ) : ℝ) ((78.4483 : ℚ) : ℝ)))
    , ("Punjagutta", .fin (haversine_km ((17.4376 : ℚ) : ℝ) ((78.4483 : ℚ) : ℝ)
        ((17.4294 : ℚ) : ℝ) ((78.4506 : ℚ) : ℝ)))
    , ("Mehdipatnam", .fin (haversine_km ((17.4376 : ℚ) : ℝ) ((78.4483 : ℚ) : ℝ)
        ((17.3956 : ℚ) : ℝ) ((78.4403 : ℚ) : ℝ))) ]
    0 (.fin (0.5 : ℚ)) rfl rfl rfl rfl rfl (by decide) rfl rfl
  rw [hEq]
  split
  · rw [if_pos (show formatTsOk ((0 : ℤ)) = true by decide),
      if_neg (show ¬(false = true) by decide)]
    rfl
  · rfl

/-! ### Numeric analysis of the haversine distances for the 10A scenario -/

theorem atan2_pos_x (y x : ℝ) (hx : 0 < x) : atan2 y x = Real.arctan (y / x) := by
  unfold atan2
  rw [if_pos hx]

/-- The map `a ↦ atan2 √a √(1-a)` is strictly monotone on `[0, 1]`. -/
theorem atan2_sqrt_strict_mono {a b : ℝ} (h0 : 0 ≤ a) (hab : a < b) (hb : b ≤ 1) :
    atan2 (Real.sqrt a) (Real.sqrt (1 - a)) < atan2 (Real.sqrt b) (Real.sqrt (1 - b)) := by
  have ha1 : a < 1 := lt_of_lt_of_le hab hb
  have hxa : 0 < Real.sqrt (1 - a) := Real.sqrt_pos.mpr (by linarith)
  rw [atan2_pos_x _ _ hxa]
  rcases eq_or_lt_of_le hb with hbeq | hb1
  · subst hbeq
    rw [show (1 : ℝ) - 1 = 0 from by ring, Real.sqrt_zero, Real.sqrt_one]
    have h2 : atan2 1 0 = Real.pi / 2 := by
      unfold atan2
      rw [if_neg (lt_irrefl 0), if_neg (lt_irrefl 0), if_pos one_pos]
    rw [h2]
    exact Real.arctan_lt_pi_div_two _
  · have hxb : 0 < Real.sqrt (1 - b) := Real.sqrt_pos.mpr (by linarith)
    rw [atan2_pos_x _ _ hxb]
    apply Real.arctan_strictMono
    rw [div_lt_div_iff₀ hxa hxb]
    have hb0 : 0 ≤ b := le_trans h0 hab.le
    have h1b : (0 : ℝ) ≤ 1 - b := by linarith
    have h1a : (0 : ℝ) ≤ 1 - a := by linarith
    refine lt_of_pow_lt_pow_left₀ 2 (by positivity) ?_
    rw [mul_pow, mul_pow, Real.sq_sqrt h0, Real.sq_sqrt hb0, Real.sq_sqrt h1b, Real.sq_sqrt h1a]
    nlinarith

/-- The haversine intermediate `a` never exceeds 1. -/
theorem havA_le_one (lat1 lon1 lat2 lon2 : ℝ) : havA lat1 lon1 lat2 lon2 ≤ 1 := by
  unfold havA radians
  have e1 : Real.sin ((lat2 - lat1) * Real.pi / 180 / 2) ^ 2
      = 1 / 2 - Real.cos ((lat2 - lat1) * Real.pi / 180) / 2 := by
    rw [Real.sin_sq_eq_half_sub,
      show 2 * ((lat2 - lat1) * Real.pi / 180 / 2) = (lat2 - lat1) * Real.pi / 180 from by ring]
  have e2 : Real.sin ((lon2 - lon1) * Real.pi / 180 / 2) ^ 2
      = 1 / 2 - Real.cos ((lon2 - lon1) * Real.pi / 180) / 2 := by
    rw [Real.sin_sq_eq_half_sub,
      show 2 * ((lon2 - lon1) * Real.pi / 180 / 2) = (lon2 - lon1) * Real.pi / 180 from by ring]
  rw [e1, e2,
    show (lat2 - lat1) * Real.pi / 180 = lat2 * Real.pi / 180 - lat1 * Real.pi / 180 from by ring,
    Real.cos_sub]
  set s1 := Real.sin (lat1 * Real.pi / 180)
  set s2 := Real.sin (lat2 * Real.pi / 180)
  set c1 := Real.cos (lat1 * Real.pi / 180)
  set c2 := Real.cos (lat2 * Real.pi / 180)
  set u := Real.cos ((lon2 - lon1) * Real.pi / 180)
  have hs1 : s1 ^ 2 + c1 ^ 2 = 1 := Real.sin_sq_add_cos_sq _
  have hs2 : s2 ^ 2 + c2 ^ 2 = 1 := Real.sin_sq_add_cos_sq _
  have hu1 : -1 ≤ u := Real.neg_one_le_cos _
  have hu2 : u ≤ 1 := Real.cos_le_one _
  nlinarith [mul_nonneg (by linarith : (0 : ℝ) ≤ 1 + u) (sq_nonneg (c1 + c2)),
    mul_nonneg (by linarith : (0 : ℝ) ≤ 1 - u) (sq_nonneg (c1 - c2)),
    sq_nonneg (s1 + s2), sq_nonneg (s1 - s2)]

/-- Distances with a common source point compare like their `a` values. -/
theorem hav_lt_of_havA (lat1 lon1 x2 y2 x3 y3 : ℝ)
    (h0 : 0 ≤ havA lat1 lon1 x2 y2)
    (hab : havA lat1 lon1 x2 y2 < havA lat1 lon1 x3 y3)
    (hb : havA lat1 lon1 x3 y3 ≤ 1) :
    haversine_km lat1 lon1 x2 y2 < haversine_km lat1 lon1 x3 y3 := by
  rw [haversine_km_def, haversine_km_def]
  have h := atan2_sqrt_strict_mono h0 hab hb
  nlinarith [h]

theorem sin_sq_le_of_abs_le (x c : ℝ) (h1 : -c ≤ x) (h2 : x ≤ c) :
    Real.sin x ^ 2 ≤ c ^ 2 := by
  have h := Real.sin_sq_le_sq (x := x)
  nlinarith

theorem sin_sq_ge_of_bounds (x c : ℝ) (h0 : 0 < c) (h1 : c ≤ x) (h2 : x ≤ 1) :
    (3 / 4 * c) ^ 2 ≤ Real.sin x ^ 2 := by
  have hx0 : 0 < x := lt_of_lt_of_le h0 h1
  have hs := Real.sin_gt_sub_cube hx0 h2
  have hx2 : (0 : ℝ) ≤ 1 - x ^ 2 := by nlinarith
  have h3 : 3 / 4 * c ≤ Real.sin x := by nlinarith [mul_nonneg hx0.le hx2]
  have h4 : (0 : ℝ) ≤ 3 / 4 * c := by linarith
  nlinarith

theorem cos_lb (x c : ℝ) (h1 : 0 ≤ x) (h2 : x ≤ c) : 1 - c ^ 2 / 2 ≤ Real.cos x := by
  have h := Real.one_sub_sq_div_two_le_cos (x := x)
  nlinarith

/-- `cos·cos·s ≤ s` for non-negative `s`. -/
theorem ccs_le (a b s : ℝ) (hs : 0 ≤ s) : Real.cos a * Real.cos b * s ≤ s := by
  have h1 : Real.cos a * Real.cos b ≤ 1 := by
    nlinarith [Real.neg_one_le_cos a, Real.cos_le_one a, Real.neg_one_le_cos b,
      Real.cos_le_one b]
  nlinarith [mul_nonneg (by linarith : (0 : ℝ) ≤ 1 - Real.cos a * Real.cos b) hs]

theorem prod3_lb (A B S a b s : ℝ) (ha : a ≤ A) (hb : b ≤ B) (hs : s ≤ S)
    (ha0 : 0 ≤ a) (hb0 : 0 ≤ b) (hs0 : 0 ≤ s) : a * b * s ≤ A * B * S := by
  have hA0 : 0 ≤ A := le_trans ha0 ha
  have hB0 : 0 ≤ B := le_trans hb0 hb
  exact mul_le_mul (mul_le_mul ha hb hb0 hA0) hs hs0 (mul_nonneg hA0 hB0)

/-- Exact value of the Ameerpet distance: the longitudes agree, so the whole
haversine collapses to the arc `R·Δφ`. -/
theorem dAm_eq_lit :
    haversine_km 17.4376 78.4483 17.4375 78.4483 = 6371 * Real.pi / 1800000 := by
  rw [haversine_km_def]
  have e : havA 17.4376 78.4483 17.4375 78.4483 = Real.sin (Real.pi / 3600000) ^ 2 := by
    unfold havA radians
    rw [show ((17.4375 : ℝ) - 17.4376) * Real.pi / 180 / 2 = -(Real.pi / 3600000) from by
        ring,
      show ((78.4483 : ℝ) - 78.4483) * Real.pi / 180 / 2 = 0 from by ring,
      Real.sin_neg, Real.sin_zero, neg_sq]
    ring
  rw [e]
  have hπ := Real.pi_pos
  have ht0 : (0 : ℝ) < Real.pi / 3600000 := by positivity
  have htl : Real.pi / 3600000 < Real.pi / 2 := by nlinarith
  have hsin : 0 ≤ Real.sin (Real.pi / 3600000) :=
    Real.sin_nonneg_of_nonneg_of_le_pi ht0.le (by nlinarith)
  have hcos : 0 < Real.cos (Real.pi / 3600000) :=
    Real.cos_pos_of_mem_Ioo ⟨by nlinarith, htl⟩
  rw [Real.sqrt_sq hsin,
    show (1 : ℝ) - Real.sin (Real.pi / 3600000) ^ 2 = Real.cos (Real.pi / 3600000) ^ 2 from by
      nlinarith [Real.sin_sq_add_cos_sq (Real.pi / 3600000)],
    Real.sqrt_sq hcos.le, atan2_pos_x _ _ hcos, ← Real.tan_eq_sin_div_cos,
    Real.arctan_tan (by nlinarith) htl]
  ring

theorem eSec : havA 17.4376 78.4483 17.4399 78.4983 =
    Real.sin (0.0023 * Real.pi / 180 / 2) ^ 2 +
      Real.cos (17.4376 * Real.pi / 180) * Real.cos (17.4399 * Real.pi / 180) *
        Real.sin (0.05 * Real.pi / 180 / 2) ^ 2 := by
  unfold havA radians
  norm_num

theorem eBeg : havA 17.4376 78.4483 17.4444 78.4611 =
    Real.sin (0.0068 * Real.pi / 180 / 2) ^ 2 +
      Real.cos (17.4376 * Real.pi / 180) * Real.cos (17.4444 * Real.pi / 180) *
        Real.sin (0.0128 * Real.pi / 180 / 2) ^ 2 := by
  unfold havA radians
  norm_num

theorem eAm : havA 17.4376 78.4483 17.4375 78.4483 =
    Real.sin (0.0001 * Real.pi / 180 / 2) ^ 2 := by
  unfold havA radians
  rw [show ((17.4375 : ℝ) - 17.4376) * Real.pi / 180 / 2 = -(0.0001 * Real.pi / 180 / 2) from by
      ring,
    show ((78.4483 : ℝ) - 78.4483) * Real.pi / 180 / 2 = 0 from by ring,
    Real.sin_neg, Real.sin_zero, neg_sq]
  ring

theorem ePun : havA 17.4376 78.4483 17.4294 78.4506 =
    Real.sin (0.0082 * Real.pi / 180 / 2) ^ 2 +
      Real.cos (17.4376 * Real.pi / 180) * Real.cos (17.4294 * Real.pi / 180) *
        Real.sin (0.0023 * Real.pi / 180 / 2) ^ 2 := by
  unfold havA radians
  rw [show ((17.4294 : ℝ) - 17.4376) * Real.pi / 180 / 2 = -(0.0082 * Real.pi / 180 / 2) from by
      ring,
    Real.sin_neg, neg_sq]
  norm_num

theorem eMeh : havA 17.4376 78.4483 17.3956 78.4403 =
    Real.sin (0.042 * Real.pi / 180 / 2) ^ 2 +
      Real.cos (17.4376 * Real.pi / 180) * Real.cos (17.3956 * Real.pi / 180) *
        Real.sin (0.008 * Real.pi / 180 / 2) ^ 2 := by
  unfold havA radians
  rw [show ((17.3956 : ℝ) - 17.4376) * Real.pi / 180 / 2 = -(0.042 * Real.pi / 180 / 2) from by
      ring,
    show ((78.4403 : ℝ) - 78.4483) * Real.pi / 180 / 2 = -(0.008 * Real.pi / 180 / 2) from by
      ring,
    Real.sin_neg, Real.sin_neg, neg_sq, neg_sq]

theorem aSec_lb : (0.00000009 : ℝ) ≤ havA 17.4376 78.4483 17.4399 78.4983 := by
  have hπ1 := Real.pi_gt_d6
  have hπ2 := Real.pi_lt_d6
  rw [eSec]
  have hc1 : (1 : ℝ) - 0.305 ^ 2 / 2 ≤ Real.cos (17.4376 * Real.pi / 180) :=
    cos_lb _ _ (by positivity) (by nlinarith)
  have hc2 : (1 : ℝ) - 0.305 ^ 2 / 2 ≤ Real.cos (17.4399 * Real.pi / 180) :=
    cos_lb _ _ (by positivity) (by nlinarith)
  have hs : (3 / 4 * (0.000436 : ℝ)) ^ 2 ≤ Real.sin (0.05 * Real.pi / 180 / 2) ^ 2 :=
    sin_sq_ge_of_bounds _ _ (by norm_num) (by nlinarith) (by nlinarith)
  have hprod : ((1 : ℝ) - 0.305 ^ 2 / 2) * (1 - 0.305 ^ 2 / 2) * (3 / 4 * 0.000436) ^ 2 ≤
      Real.cos (17.4376 * Real.pi / 180) * Real.cos (17.4399 * Real.pi / 180) *
        Real.sin (0.05 * Real.pi / 180 / 2) ^ 2 :=
    prod3_lb _ _ _ _ _ _ hc1 hc2 hs (by norm_num) (by norm_num) (by positivity)
  nlinarith [sq_nonneg (Real.sin (0.0023 * Real.pi / 180 / 2)), hprod]

theorem aBeg_lb : (0.000000006 : ℝ) ≤ havA 17.4376 78.4483 17.4444 78.4611 := by
  have hπ1 := Real.pi_gt_d6
  have hπ2 := Real.pi_lt_d6
  rw [eBeg]
  have hc1 : (1 : ℝ) - 0.305 ^ 2 / 2 ≤ Real.cos (17.4376 * Real.pi / 180) :=
    cos_lb _ _ (by positivity) (by nlinarith)
  have hc2 : (1 : ℝ) - 0.305 ^ 2 / 2 ≤ Real.cos (17.4444 * Real.pi / 180) :=
    cos_lb _ _ (by positivity) (by nlinarith)
  have hs : (3 / 4 * (0.00011 : ℝ)) ^ 2 ≤ Real.sin (0.0128 * Real.pi / 180 / 2) ^ 2 :=
    sin_sq_ge_of_bounds _ _ (by norm_num) (by nlinarith) (by nlinarith)
  have hprod : ((1 : ℝ) - 0.305 ^ 2 / 2) * (1 - 0.305 ^ 2 / 2) * (3 / 4 * 0.00011) ^ 2 ≤
      Real.cos (17.4376 * Real.pi / 180) * Real.cos (17.4444 * Real.pi / 180) *
        Real.sin (0.0128 * Real.pi / 180 / 2) ^ 2 :=
    prod3_lb _ _ _ _ _ _ hc1 hc2 hs (by norm_num) (by norm_num) (by positivity)
  nlinarith [sq_nonneg (Real.sin (0.0068 * Real.pi / 180 / 2)), hprod]

theorem aBeg_ub : havA 17.4376 78.4483 17.4444 78.4611 ≤ (0.000000017 : ℝ) := by
  have hπ1 := Real.pi_gt_d6
  have hπ2 := Real.pi_lt_d6
  rw [eBeg]
  have h1 : Real.sin (0.0068 * Real.pi / 180 / 2) ^ 2 ≤ (0.00006 : ℝ) ^ 2 :=
    sin_sq_le_of_abs_le _ _ (by nlinarith) (by nlinarith)
  have h2 : Real.sin (0.0128 * Real.pi / 180 / 2) ^ 2 ≤ (0.000112 : ℝ) ^ 2 :=
    sin_sq_le_of_abs_le _ _ (by nlinarith) (by nlinarith)
  have h3 : Real.cos (17.4376 * Real.pi / 180) * Real.cos (17.4444 * Real.pi / 180) *
      Real.sin (0.0128 * Real.pi / 180 / 2) ^ 2 ≤
        Real.sin (0.0128 * Real.pi / 180 / 2) ^ 2 :=
    ccs_le _ _ _ (sq_nonneg _)
  nlinarith [h1, h2, h3]

theorem aAm_ub : havA 17.4376 78.4483 17.4375 78.4483 ≤ (0.0000009 : ℝ) ^ 2 := by
  have hπ1 := Real.pi_gt_d6
  have hπ2 := Real.pi_lt_d6
  rw [eAm]
  exact sin_sq_le_of_abs_le _ _ (by nlinarith) (by nlinarith)

theorem aAm_nonneg : 0 ≤ havA 17.4376 78.4483 17.4375 78.4483 := by
  rw [eAm]
  exact sq_nonneg _

theorem aPun_lb : (0.0000000025 : ℝ) ≤ havA 17.4376 78.4483 17.4294 78.4506 := by
  have hπ1 := Real.pi_gt_d6
  have hπ2 := Real.pi_lt_d6
  rw [ePun]
  have hs : (3 / 4 * (0.00007 : ℝ)) ^ 2 ≤ Real.sin (0.0082 * Real.pi / 180 / 2) ^ 2 :=
    sin_sq_ge_of_bounds _ _ (by norm_num) (by nlinarith) (by nlinarith)
  have hc1 : (0 : ℝ) ≤ Real.cos (17.4376 * Real.pi / 180) := by
    nlinarith [cos_lb (17.4376 * Real.pi / 180) 0.305 (by positivity) (by nlinarith)]
  have hc2 : (0 : ℝ) ≤ Real.cos (17.4294 * Real.pi / 180) := by
    nlinarith [cos_lb (17.4294 * Real.pi / 180) 0.305 (by positivity) (by nlinarith)]
  have hP : (0 : ℝ) ≤ Real.cos (17.4376 * Real.pi / 180) * Real.cos (17.4294 * Real.pi / 180) *
      Real.sin (0.0023 * Real.pi / 180 / 2) ^ 2 :=
    mul_nonneg (mul_nonneg hc1 hc2) (sq_nonneg _)
  nlinarith [hs, hP]

theorem aMeh_lb : (0.00000007 : ℝ) ≤ havA 17.4376 78.4483 17.3956 78.4403 := by
  have hπ1 := Real.pi_gt_d6
  have hπ2 := Real.pi_lt_d6
  rw [eMeh]
  have hs : (3 / 4 * (0.00036 : ℝ)) ^ 2 ≤ Real.sin (0.042 * Real.pi / 180 / 2) ^ 2 :=
    sin_sq_ge_of_bounds _ _ (by norm_num) (by nlinarith) (by nlinarith)
  have hc1 : (0 : ℝ) ≤ Real.cos (17.4376 * Real.pi / 180) := by
    nlinarith [cos_lb (17.4376 * Real.pi / 180) 0.305 (by positivity) (by nlinarith)]
  have hc2 : (0 : ℝ) ≤ Real.cos (17.3956 * Real.pi / 180) := by
    nlinarith [cos_lb (17.3956 * Real.pi / 180) 0.305 (by positivity) (by nlinarith)]
  have hP : (0 : ℝ) ≤ Real.cos (17.4376 * Real.pi / 180) * Real.cos (17.3956 * Real.pi / 180) *
      Real.sin (0.008 * Real.pi / 180 / 2) ^ 2 :=
    mul_nonneg (mul_nonneg hc1 hc2) (sq_nonneg _)
  nlinarith [hs, hP]

theorem cmp_Beg_Sec : distBegumpet < distSecunderabad := by
  unfold distBegumpet distSecunderabad
  push_cast
  exact hav_lt_of_havA _ _ _ _ _ _
    (le_trans (by norm_num) aBeg_lb)
    (lt_of_le_of_lt aBeg_ub (lt_of_lt_of_le (by norm_num) aSec_lb))
    (havA_le_one _ _ _ _)

theorem cmp_Am_Beg : distAmeerpet < distBegumpet := by
  unfold distAmeerpet distBegumpet
  push_cast
  exact hav_lt_of_havA _ _ _ _ _ _ aAm_nonneg
    (lt_of_le_of_lt aAm_ub (lt_of_lt_of_le (by norm_num) aBeg_lb))
    (havA_le_one _ _ _ _)

theorem cmp_Am_Pun : distAmeerpet < distPunjagutta := by
  unfold distAmeerpet distPunjagutta
  push_cast
  exact hav_lt_of_havA _ _ _ _ _ _ aAm_nonneg
    (lt_of_le_of_lt aAm_ub (lt_of_lt_of_le (by norm_num) aPun_lb))
    (havA_le_one _ _ _ _)

theorem cmp_Am_Meh : distAmeerpet < distMehdipatnam := by
  unfold distAmeerpet distMehdipatnam
  push_cast
  exact hav_lt_of_havA _ _ _ _ _ _ aAm_nonneg
    (lt_of_le_of_lt aAm_ub (lt_of_lt_of_le (by norm_num) aMeh_lb))
    (havA_le_one _ _ _ _)

theorem distAmeerpet_eq : distAmeerpet = 6371 * Real.pi / 1800000 := by
  unfold distAmeerpet
  push_cast
  exact dAm_eq_lit

theorem distAmeerpet_bounds : (0.011 : ℝ) ≤ distAmeerpet ∧ distAmeerpet ≤ 0.0112 := by
  rw [distAmeerpet_eq]
  constructor <;> nlinarith [Real.pi_gt_d6, Real.pi_lt_d6]

/-- Complete evaluation of `api_track` on the scenario report: Ameerpet wins
the minimum, the record is written, and the alert fires (or the call fails if
the publisher does, the write surviving either way). -/
theorem report10a_run (sp : ℚ) (now : ℤ) (pf : Bool) (hfmt : formatTsOk now = true) :
    apiTrack report10a sp now pf =
      (if pf = true then ⟨.err ("publish failed") 500, [item10a sp now], []⟩
       else ⟨.ok (item10a sp now), [item10a sp now], [⟨"10A", "Ameerpet"⟩]⟩) := by
  have hEq := apiTrack_eq_of_parses report10a sp now pf
    (.fin 17.4376) (.fin 78.4483) (.fin sp) bus10A
    ("Secunderabad", .fin distSecunderabad)
    [("Begumpet", .fin distBegumpet), ("Ameerpet", .fin distAmeerpet),
     ("Punjagutta", .fin distPunjagutta), ("Mehdipatnam", .fin distMehdipatnam)]
    now (.fin (0.5 : ℚ)) rfl rfl rfl rfl rfl (by decide)
    (by simp [tsValOf, report10a, normalizeTs, truncQ_intCast]) rfl
  have hmin : minSnd ("Secunderabad", PyF.fin distSecunderabad)
      [("Begumpet", .fin distBegumpet), ("Ameerpet", .fin distAmeerpet),
       ("Punjagutta", .fin distPunjagutta), ("Mehdipatnam", .fin distMehdipatnam)] =
      ("Ameerpet", PyF.fin distAmeerpet) := by
    unfold minSnd
    simp only [List.foldl_cons, List.foldl_nil]
    rw [if_pos (show PyF.ltP (.fin distBegumpet) (.fin distSecunderabad) from cmp_Beg_Sec),
      if_pos (show PyF.ltP (.fin distAmeerpet) (.fin distBegumpet) from cmp_Am_Beg),
      if_neg (show ¬PyF.ltP (.fin distPunjagutta) (.fin distAmeerpet) from lt_asymm cmp_Am_Pun),
      if_neg (show ¬PyF.ltP (.fin distMehdipatnam) (.fin distAmeerpet) from lt_asymm cmp_Am_Meh)]
  rw [hEq, hmin]
  have hle : PyF.leP (PyF.fin distAmeerpet) ((PyQ.fin (0.5 : ℚ)).toF) := by
    show distAmeerpet ≤ ((0.5 : ℚ) : ℝ)
    have h := distAmeerpet_bounds.2
    push_cast
    linarith
  dsimp only
  rw [if_pos hle, if_pos hfmt]
  cases pf
  · rw [if_neg (show ¬(false = true) by decide), if_neg (show ¬(false = true) by decide)]
    rfl
  · rw [if_pos rfl, if_pos rfl]
    rfl

/-! ### Claim C9 -/

/-- C9: ingesting the literal report `{bus_id: "10a", lat: 17.4376,
lon: 78.4483, alert_radius_km: 0.5}` succeeds — the vehicle id normalizes to
"10A", the resolved next stop is "Ameerpet" at distance ≈ 0.011 km (between
0.011 and 0.0112), exactly one record is persisted, and exactly one alert is
published. -/
theorem c9_scenario_literal_10a (sp : ℚ) (now : ℤ) (hfmt : formatTsOk now = true) :
    (apiTrack report10a sp now false).resp.isOk = true ∧
      (apiTrack report10a sp now false).resp.itemOf.busId = "10A" ∧
      (apiTrack report10a sp now false).resp.itemOf.nextStop = "Ameerpet" ∧
      (apiTrack report10a sp now false).resp.itemOf.distanceToStopKm = .fin distAmeerpet ∧
      (0.011 : ℝ) ≤ distAmeerpet ∧ distAmeerpet ≤ 0.0112 ∧
      (apiTrack report10a sp now false).writes.length = 1 ∧
      (apiTrack report10a sp now false).pubs.length = 1 := by
  rw [report10a_run sp now false hfmt, if_neg (show ¬(false = true) by decide)]
  exact ⟨rfl, rfl, rfl, rfl, distAmeerpet_bounds.1, distAmeerpet_bounds.2, rfl, rfl⟩

/-- Witness for C9 at the concrete clock value 0 and speed filler 20. -/
theorem c9_witness :
    formatTsOk ((0 : ℤ)) = true ∧
      ((apiTrack report10a 20 0 false).resp.isOk = true ∧
        (apiTrack report10a 20 0 false).resp.itemOf.busId = "10A" ∧
        (apiTrack report10a 20 0 false).resp.itemOf.nextStop = "Ameerpet" ∧
        (apiTrack report10a 20 0 false).resp.itemOf.distanceToStopKm = .fin distAmeerpet ∧
        (0.011 : ℝ) ≤ distAmeerpet ∧ distAmeerpet ≤ 0.0112 ∧
        (apiTrack report10a 20 0 false).writes.length = 1 ∧
        (apiTrack report10a 20 0 false).pubs.length = 1) :=
  ⟨by decide, c9_scenario_literal_10a 20 0 (by decide)⟩

/-! ### Claim C3 -/

/-- C3 counterexample: on the scenario report, when the SNS publish raises, the
call returns a failure response even though `safe_put_item` already persisted
the record (one write remains; the same call with a working publisher
succeeds), contradicting the claim that a publish failure never fails the
ingestion. -/
theorem c3_counterexample_publish_failure_fails_request :
    (apiTrack report10a 20 0 true).resp.isOk = false ∧
      (apiTrack report10a 20 0 true).writes.length = 1 ∧
      (apiTrack report10a 20 0 false).resp.isOk = true := by
  rw [report10a_run 20 0 true (by decide), report10a_run 20 0 false (by decide),
    if_pos rfl, if_neg (show ¬(false = true) by decide)]
  exact ⟨rfl, rfl, rfl⟩

/-- C3 (amended): a failing publish never rolls back the persisted record — the
HistoryStore writes are identical whether the publisher works or not — but when
the call would have published, the publish failure does surface as a failure
response (with the single write kept). -/
theorem c3_amended_publish_failure_no_rollback_but_fails_response (r : RawReport)
    (sp : ℚ) (now : ℤ) :
    (apiTrack r sp now true).writes = (apiTrack r sp now false).writes ∧
    ((apiTrack r sp now false).pubs.length = 1 →
      (apiTrack r sp now true).resp.isOk = false ∧
      (apiTrack r sp now true).writes.length = 1) := by
  rcases hpre : apiTrackPre r sp now with o | ⟨item, b, st⟩
  · constructor
    · simp [apiTrack, hpre]
    · intro hpub
      have hnil := apiTrackPre_done_pubs_nil r sp now o hpre
      simp [apiTrack, hpre, hnil] at hpub
  · constructor
    · simp [apiTrack, hpre]
    · intro _
      constructor
      · simp [apiTrack, hpre, Resp.isOk]
      · simp [apiTrack, hpre]

/-- Witness for C3 (amended) at the scenario report. -/
theorem c3_witness :
    (apiTrack report10a 20 0 true).writes = (apiTrack report10a 20 0 false).writes ∧
      (apiTrack report10a 20 0 true).resp.isOk = false ∧
      (apiTrack report10a 20 0 true).writes.length = 1 := by
  have h := c3_amended_publish_failure_no_rollback_but_fails_response report10a 20 0
  refine ⟨h.1, h.2 ?_⟩
  rw [report10a_run 20 0 false (by decide), if_neg (show ¬(false = true) by decide)]
  rfl

end BusRoutea
